import Mathlib

/-!
Verification development for the Blender sculpt automasking core
(`source/blender/editors/sculpt_paint/sculpt_automasking.cc`) and the
sculpt attribute store (`source/blender/blenkernel/intern/paint.cc`).

Machine floats are modelled as rationals (`ℚ`); the arithmetic in the
claims under study is exact on the inputs considered.  Mesh geometry,
adjacency and the external boolean queries (face-set membership,
boundary tests, occlusion ray casts) are supplied as environment
functions, mirroring how the C code consumes them through accessor
calls.
-/

namespace Blender

/-! ## Automasking flag bits

Modelled from the spec: the flag-bit constants of `eAutomasking_flag`
live in `DNA_brush_types.h`, which is not part of the excerpt; the spec
describes them as independent per-mode flag bits, with the two cavity
bits (normal and inverted) jointly forming the "cavity all" group. -/

def BRUSH_AUTOMASKING_TOPOLOGY : Nat := 1
def BRUSH_AUTOMASKING_FACE_SETS : Nat := 2
def BRUSH_AUTOMASKING_BOUNDARY_EDGES : Nat := 4
def BRUSH_AUTOMASKING_BOUNDARY_FACE_SETS : Nat := 8
def BRUSH_AUTOMASKING_CAVITY_NORMAL : Nat := 16
def BRUSH_AUTOMASKING_CAVITY_INVERTED : Nat := 32
def BRUSH_AUTOMASKING_CAVITY_ALL : Nat := 16 ||| 32
def BRUSH_AUTOMASKING_CAVITY_USE_CURVE : Nat := 64
def BRUSH_AUTOMASKING_BRUSH_NORMAL : Nat := 128
def BRUSH_AUTOMASKING_VIEW_NORMAL : Nat := 256
def BRUSH_AUTOMASKING_VIEW_OCCLUSION : Nat := 512

/-- Test a flag bit-group: `flags & mode` as a boolean, as the C code
uses automasking flag words. -/
def testFlag (flags mode : Nat) : Bool := flags &&& mode ≠ 0

/-! ## Rational 3-vectors (world-space coordinates and normals) -/

structure Vec3 where
  x : ℚ
  y : ℚ
  z : ℚ
deriving DecidableEq, Repr

def dot3 (a b : Vec3) : ℚ := a.x * b.x + a.y * b.y + a.z * b.z

def sub3 (a b : Vec3) : Vec3 := ⟨a.x - b.x, a.y - b.y, a.z - b.z⟩

def lenSq3 (a b : Vec3) : ℚ := dot3 (sub3 a b) (sub3 a b)

/-- CLAMP from BLI: clamp `v` into `[lo, hi]` (source uses the `CLAMP`
macro). -/
def clampQ (v lo hi : ℚ) : ℚ := if v < lo then lo else if v > hi then hi else v

/-- BLI `signf`: `-1` for negative input, `1` otherwise. -/
def signf (f : ℚ) : ℚ := if f < 0 then -1 else 1

/-! ## `normal_calc` (sculpt_automasking.cc:129)

The source computes `angle = safe_acosf(dot_v3v3(normal, normal_v))`
and then applies a smoothstep falloff between the two angular limits.
`safe_acosf` is transcendental, so the embedding takes the already
computed angle as input; every theorem below holds for an arbitrary
rational angle, which subsumes the actual `[0, π]` range of `acos`. -/

def smoothstepQ (t : ℚ) : ℚ := t * t * (3 - 2 * t)

def normal_calc (angle limit_lower limit_upper : ℚ) : ℚ :=
  if limit_lower < angle ∧ angle < limit_upper then
    smoothstepQ (1 - (angle - limit_lower) / (limit_upper - limit_lower))
  else if limit_upper < angle then 0
  else 1

/-! ## Automasking settings for the factor calculators

The numeric fields of `Cache::settings` read by the per-query factor
code, as rationals. -/

structure FactorSettings where
  flags : Nat
  initial_face_set : Int
  initial_island_nr : Int
  view_normal_limit : ℚ
  view_normal_falloff : ℚ
  start_normal_limit : ℚ
  start_normal_falloff : ℚ
  cavity_factor : ℚ
  cavity_blur_steps : Int
  topology_use_brush_limit : Bool
deriving Repr

/-- The 3-argument `calc_cavity_factor` (sculpt_automasking.cc:303):
rescale the raw signed curvature estimate by the user cavity strength,
recentre at 1/2, clamp into `[0,1]` and apply the inversion flag. -/
def calc_cavity_factor_value (s : FactorSettings) (factor : ℚ) : ℚ :=
  let sign := signf factor
  let f1 := |factor| * s.cavity_factor * 50
  let f2 := f1 * sign * (1 / 2) + 1 / 2
  let f3 := clampQ f2 0 1
  if testFlag s.flags BRUSH_AUTOMASKING_CAVITY_INVERTED then 1 - f3 else f3

/-- The tail of `calc_blurred_cavity` (sculpt_automasking.cc:453-458):
the displacement between the two ring centroids `sco1`/`sco2` is
projected onto the outer averaged normal `sno2`, normalised by the mean
neighbour distance `len1_sum`, and rescaled by `calc_cavity_factor`.
The breadth-first gather that produces the centroids is taken as input;
the claim under study constrains only this final computation. -/
def blurred_cavity_store (s : FactorSettings) (sco1 sco2 sno2 : Vec3)
    (len1_sum : ℚ) : ℚ :=
  calc_cavity_factor_value s (dot3 (sub3 sco1 sco2) sno2 / len1_sum)

/-! ## The per-query factor state

`factor_get` reads and writes three per-vertex attribute buffers: the
stroke-id stamps, the cached cavity factors and the cached occlusion
chars.  They are modelled as total maps from vertex index. -/

structure FactorState where
  stroke_id_stamp : Nat → Nat
  cavity : Nat → ℚ
  occlusion : Nat → Int

def updNat (f : Nat → Nat) (i v : Nat) : Nat → Nat :=
  fun k => if k = i then v else f k

def updQ (f : Nat → ℚ) (i : Nat) (v : ℚ) : Nat → ℚ :=
  fun k => if k = i then v else f k

def updInt (f : Nat → Int) (i : Nat) (v : Int) : Nat → Int :=
  fun k => if k = i then v else f k

theorem updNat_same (f : Nat → Nat) (i v : Nat) : updNat f i v i = v := by
  unfold updNat
  simp

theorem updNat_other (f : Nat → Nat) (i v k : Nat) (h : k ≠ i) : updNat f i v k = f k := by
  unfold updNat
  simp [h]

theorem updQ_same (f : Nat → ℚ) (i : Nat) (v : ℚ) : updQ f i v i = v := by
  unfold updQ
  simp

theorem updQ_other (f : Nat → ℚ) (i : Nat) (v : ℚ) (k : Nat) (h : k ≠ i) :
    updQ f i v k = f k := by
  unfold updQ
  simp [h]

theorem updInt_same (f : Nat → Int) (i : Nat) (v : Int) : updInt f i v i = v := by
  unfold updInt
  simp

theorem updInt_other (f : Nat → Int) (i : Nat) (v : Int) (k : Nat) (h : k ≠ i) :
    updInt f i v k = f k := by
  unfold updInt
  simp [h]

/-- Environment of a factor query: the cache settings plus the external
accessor calls the source makes per vertex.  `brush_angle`/`view_angle`
give `safe_acosf` of the dot product between the vertex normal (original
normal when the optional argument is passed) and the initial/view
normal of the active symmetry pass.  `curve_eval` is
`BKE_curvemapping_evaluateF` on the cavity curve.  `pi` is the runtime
value of `M_PI`; no claim depends on its value. -/
structure FactorEnv where
  settings : FactorSettings
  pi : ℚ
  has_stroke_cache : Bool
  has_filter_cache : Bool
  has_factor_attr : Bool
  has_stroke_id_attr : Bool
  factor_attr : Nat → ℚ
  brush_angle : Nat → Option Vec3 → ℚ
  view_angle : Nat → Option Vec3 → ℚ
  vertex_occluded : Nat → Bool
  island_id : Nat → Int
  vert_has_face_set : Nat → Int → Bool
  vert_is_boundary : Nat → Bool
  vert_has_unique_face_set : Nat → Bool
  fs_boundary_ignore : Nat → Bool
  cavity_raw : Nat → ℚ
  curve_eval : ℚ → ℚ
  current_stroke_id : Nat

/-- `automasking_factor_end` (sculpt_automasking.cc:290): stamp the
vertex with the cache's stroke id (when the stamp attribute exists) and
pass the value through. -/
def automasking_factor_end (env : FactorEnv) (st : FactorState) (v : Nat)
    (value : ℚ) : ℚ × FactorState :=
  if env.has_stroke_id_attr then
    (value, { st with stroke_id_stamp := updNat st.stroke_id_stamp v env.current_stroke_id })
  else (value, st)

/-- `calc_blurred_cavity` (sculpt_automasking.cc:329) as a state update:
the gathered raw curvature estimate for `v` is `env.cavity_raw v`; the
final lines rescale it with `calc_cavity_factor` and store it in the
cavity attribute. -/
def calc_blurred_cavity (env : FactorEnv) (st : FactorState) (v : Nat) :
    FactorState :=
  { st with cavity := updQ st.cavity v (calc_cavity_factor_value env.settings (env.cavity_raw v)) }

/-- The curve remap step of the 4-argument `calc_cavity_factor`
(sculpt_automasking.cc:521-529): when both the cavity mode and the
use-curve flag are set, evaluate the user curve with the inversion flag
applied around the remap. -/
def cavity_postprocess (env : FactorEnv) (factor : ℚ) : ℚ :=
  let inverted := testFlag env.settings.flags BRUSH_AUTOMASKING_CAVITY_INVERTED
  if testFlag env.settings.flags BRUSH_AUTOMASKING_CAVITY_ALL ∧
      testFlag env.settings.flags BRUSH_AUTOMASKING_CAVITY_USE_CURVE then
    let f1 := if inverted then 1 - factor else factor
    let f2 := env.curve_eval f1
    if inverted then 1 - f2 else f2
  else factor

/-- The 4-argument `calc_cavity_factor` (sculpt_automasking.cc:507):
recompute the blurred cavity when the vertex's stamp is stale, then read
the cached value and optionally remap it through the user curve. -/
def calc_cavity_factor_query (env : FactorEnv) (st : FactorState) (v : Nat) :
    ℚ × FactorState :=
  let stamp := st.stroke_id_stamp v
  let st1 := if stamp ≠ env.current_stroke_id then calc_blurred_cavity env st v else st
  (cavity_postprocess env (st1.cavity v), st1)

/-- `calc_view_occlusion_factor` (sculpt_automasking.cc:270): read the
cached occlusion char, recompute it by an occlusion ray test when the
passed stroke id is stale, and report whether the vertex is occluded. -/
def calc_view_occlusion_factor (env : FactorEnv) (st : FactorState) (v : Nat)
    (stroke_id : Nat) : Bool × FactorState :=
  if stroke_id ≠ env.current_stroke_id then
    let f : Int := if env.vertex_occluded v then 2 else 1
    (f = 2, { st with occlusion := updInt st.occlusion v f })
  else (st.occlusion v = 2, st)

/-- `calc_brush_normal_factor` (sculpt_automasking.cc:217). -/
def calc_brush_normal_factor (env : FactorEnv) (v : Nat) (orig : Option Vec3) : ℚ :=
  let falloff := env.settings.start_normal_falloff * env.pi
  normal_calc (env.brush_angle v orig)
    (env.settings.start_normal_limit - falloff * (1 / 2))
    (env.settings.start_normal_limit + falloff * (1 / 2))

/-- `calc_view_normal_factor` (sculpt_automasking.cc:243). -/
def calc_view_normal_factor (env : FactorEnv) (v : Nat) (orig : Option Vec3) : ℚ :=
  let falloff := env.settings.view_normal_falloff * env.pi
  normal_calc (env.view_angle v orig)
    env.settings.view_normal_limit
    (env.settings.view_normal_limit + falloff)

/-- The brush-normal contribution at the head of `factor_get`
(sculpt_automasking.cc:541-549): `mask` starts at 1 and is multiplied
by the brush-normal falloff when a stroke or filter cache exists and
the brush-normal mode is set. -/
def brush_mask (env : FactorEnv) (v : Nat) (orig : Option Vec3) : ℚ :=
  if (env.has_stroke_cache || env.has_filter_cache) &&
      testFlag env.settings.flags BRUSH_AUTOMASKING_BRUSH_NORMAL then
    1 * calc_brush_normal_factor env v orig
  else 1

/-- The view-normal multiplication near the end of `factor_get`
(sculpt_automasking.cc:606-610). -/
def view_mask_mul (env : FactorEnv) (v : Nat) (orig : Option Vec3) (mask : ℚ) : ℚ :=
  if (env.has_stroke_cache || env.has_filter_cache) &&
      testFlag env.settings.flags BRUSH_AUTOMASKING_VIEW_NORMAL then
    mask * calc_view_normal_factor env v orig
  else mask

/-- The occlusion test of `factor_get` (sculpt_automasking.cc:564-574):
the stroke id is read from the stamp attribute (the source's `-1`
default is the unsigned char value 255), and the occlusion factor is
computed only when both the view-occlusion and the view-normal flags
are set. -/
def occlusion_pair (env : FactorEnv) (st : FactorState) (v : Nat) :
    Bool × FactorState :=
  let stroke_id := if env.has_stroke_id_attr then st.stroke_id_stamp v else 255
  if env.settings.flags &&&
      (BRUSH_AUTOMASKING_VIEW_OCCLUSION ||| BRUSH_AUTOMASKING_VIEW_NORMAL) =
      (BRUSH_AUTOMASKING_VIEW_OCCLUSION ||| BRUSH_AUTOMASKING_VIEW_NORMAL) then
    calc_view_occlusion_factor env st v stroke_id
  else (false, st)

/-- The conditional cavity multiplication of `factor_get`
(sculpt_automasking.cc:557-559, 612-614): the cavity factor query runs
only when a cavity mode flag is set; otherwise the factor is the
multiplicative unit. -/
def cavity_pair (env : FactorEnv) (st : FactorState) (v : Nat) : ℚ × FactorState :=
  if testFlag env.settings.flags BRUSH_AUTOMASKING_CAVITY_ALL then
    calc_cavity_factor_query env st v
  else (1, st)

/-- `factor_get` (sculpt_automasking.cc:534), the per-element factor
query, with the per-vertex attribute buffers threaded as explicit
state. -/
def factor_get (env : FactorEnv) (st : FactorState) (v : Nat)
    (orig : Option Vec3) : ℚ × FactorState :=
  let flags := env.settings.flags
  let mask := brush_mask env v orig
  if env.has_factor_attr then
    let cp := cavity_pair env st v
    automasking_factor_end env cp.2 v (env.factor_attr v * cp.1 * mask)
  else
    let oc := occlusion_pair env st v
    if oc.1 then automasking_factor_end env oc.2 v 0
    else if !env.settings.topology_use_brush_limit &&
        testFlag flags BRUSH_AUTOMASKING_TOPOLOGY &&
        env.island_id v ≠ env.settings.initial_island_nr then
      (0, oc.2)
    else if testFlag flags BRUSH_AUTOMASKING_FACE_SETS &&
        !env.vert_has_face_set v env.settings.initial_face_set then
      (0, oc.2)
    else if testFlag flags BRUSH_AUTOMASKING_BOUNDARY_EDGES &&
        env.vert_is_boundary v then
      (0, oc.2)
    else if testFlag flags BRUSH_AUTOMASKING_BOUNDARY_FACE_SETS &&
        !env.fs_boundary_ignore v && !env.vert_has_unique_face_set v then
      (0, oc.2)
    else
      let cp := cavity_pair env oc.2 v
      automasking_factor_end env cp.2 v (view_mask_mul env v orig mask * cp.1)

/-! ## Range lemmas for the factor calculators -/

theorem unit_mul (a b : ℚ) (ha : 0 ≤ a ∧ a ≤ 1) (hb : 0 ≤ b ∧ b ≤ 1) :
    0 ≤ a * b ∧ a * b ≤ 1 :=
  ⟨mul_nonneg ha.1 hb.1, by nlinarith [ha.1, ha.2, hb.1, hb.2]⟩

theorem smoothstepQ_mem (t : ℚ) (h0 : 0 ≤ t) (h1 : t ≤ 1) :
    0 ≤ smoothstepQ t ∧ smoothstepQ t ≤ 1 := by
  unfold smoothstepQ
  constructor
  · nlinarith
  · nlinarith [mul_nonneg (mul_nonneg (sub_nonneg.2 h1) (sub_nonneg.2 h1)) h0]

theorem normal_calc_mem (a lo hi : ℚ) :
    0 ≤ normal_calc a lo hi ∧ normal_calc a lo hi ≤ 1 := by
  unfold normal_calc
  split_ifs with h1 h2
  · obtain ⟨hl, hr⟩ := h1
    have hd : 0 < hi - lo := by linarith
    have hr0 : 0 < (a - lo) / (hi - lo) := div_pos (by linarith) hd
    have hr1 : (a - lo) / (hi - lo) < 1 := (div_lt_one hd).2 (by linarith)
    exact smoothstepQ_mem _ (by linarith) (by linarith)
  · exact ⟨le_refl 0, by norm_num⟩
  · exact ⟨by norm_num, le_refl 1⟩

theorem clampQ_mem (v lo hi : ℚ) (h : lo ≤ hi) :
    lo ≤ clampQ v lo hi ∧ clampQ v lo hi ≤ hi := by
  unfold clampQ
  split_ifs <;> constructor <;> linarith

theorem calc_cavity_factor_value_mem (s : FactorSettings) (f : ℚ) :
    0 ≤ calc_cavity_factor_value s f ∧ calc_cavity_factor_value s f ≤ 1 := by
  unfold calc_cavity_factor_value
  have h := clampQ_mem (|f| * s.cavity_factor * 50 * signf f * (1 / 2) + 1 / 2) 0 1 (by norm_num)
  split_ifs <;> constructor <;> simp only [] <;> linarith [h.1, h.2]

theorem calc_blurred_cavity_cavity_self (env : FactorEnv) (st : FactorState) (v : Nat) :
    (calc_blurred_cavity env st v).cavity v =
      calc_cavity_factor_value env.settings (env.cavity_raw v) := by
  unfold calc_blurred_cavity updQ
  simp

theorem cavity_postprocess_mem (env : FactorEnv) (x : ℚ)
    (hx : 0 ≤ x ∧ x ≤ 1)
    (hcurve : ∀ y, 0 ≤ y → y ≤ 1 → 0 ≤ env.curve_eval y ∧ env.curve_eval y ≤ 1) :
    0 ≤ cavity_postprocess env x ∧ cavity_postprocess env x ≤ 1 := by
  unfold cavity_postprocess
  simp only []
  split_ifs with hc hinv
  · have h2 := hcurve (1 - x) (by linarith [hx.2]) (by linarith [hx.1])
    exact ⟨by linarith [h2.2], by linarith [h2.1]⟩
  · exact hcurve x hx.1 hx.2
  · exact hx

theorem calc_cavity_factor_query_mem (env : FactorEnv) (st : FactorState) (v : Nat)
    (hcav : 0 ≤ st.cavity v ∧ st.cavity v ≤ 1)
    (hcurve : ∀ x, 0 ≤ x → x ≤ 1 → 0 ≤ env.curve_eval x ∧ env.curve_eval x ≤ 1) :
    0 ≤ (calc_cavity_factor_query env st v).1 ∧ (calc_cavity_factor_query env st v).1 ≤ 1 := by
  unfold calc_cavity_factor_query
  apply cavity_postprocess_mem env _ _ hcurve
  split_ifs with h
  · rw [calc_blurred_cavity_cavity_self]
    exact calc_cavity_factor_value_mem env.settings (env.cavity_raw v)
  · exact hcav

theorem automasking_factor_end_fst (env : FactorEnv) (st : FactorState) (v : Nat) (x : ℚ) :
    (automasking_factor_end env st v x).1 = x := by
  unfold automasking_factor_end
  split_ifs <;> rfl

theorem calc_view_occlusion_factor_cavity (env : FactorEnv) (st : FactorState)
    (v : Nat) (sid : Nat) :
    ((calc_view_occlusion_factor env st v sid).2).cavity = st.cavity := by
  unfold calc_view_occlusion_factor
  split_ifs <;> rfl

theorem calc_brush_normal_factor_mem (env : FactorEnv) (v : Nat) (orig : Option Vec3) :
    0 ≤ calc_brush_normal_factor env v orig ∧ calc_brush_normal_factor env v orig ≤ 1 := by
  unfold calc_brush_normal_factor
  exact normal_calc_mem _ _ _

theorem calc_view_normal_factor_mem (env : FactorEnv) (v : Nat) (orig : Option Vec3) :
    0 ≤ calc_view_normal_factor env v orig ∧ calc_view_normal_factor env v orig ≤ 1 := by
  unfold calc_view_normal_factor
  exact normal_calc_mem _ _ _

theorem brush_mask_mem (env : FactorEnv) (v : Nat) (orig : Option Vec3) :
    0 ≤ brush_mask env v orig ∧ brush_mask env v orig ≤ 1 := by
  unfold brush_mask
  split_ifs
  · simpa using calc_brush_normal_factor_mem env v orig
  · norm_num

theorem view_mask_mul_mem (env : FactorEnv) (v : Nat) (orig : Option Vec3)
    (mask : ℚ) (hm : 0 ≤ mask ∧ mask ≤ 1) :
    0 ≤ view_mask_mul env v orig mask ∧ view_mask_mul env v orig mask ≤ 1 := by
  unfold view_mask_mul
  split_ifs
  · exact unit_mul _ _ hm (calc_view_normal_factor_mem env v orig)
  · exact hm

theorem occlusion_pair_cavity (env : FactorEnv) (st : FactorState) (v : Nat) :
    ((occlusion_pair env st v).2).cavity = st.cavity := by
  unfold occlusion_pair
  simp only []
  split_ifs <;> first
    | rfl
    | exact calc_view_occlusion_factor_cavity env st v _

theorem cavity_pair_mem (env : FactorEnv) (st : FactorState) (v : Nat)
    (hcav : 0 ≤ st.cavity v ∧ st.cavity v ≤ 1)
    (hcurve : ∀ x, 0 ≤ x → x ≤ 1 → 0 ≤ env.curve_eval x ∧ env.curve_eval x ≤ 1) :
    0 ≤ (cavity_pair env st v).1 ∧ (cavity_pair env st v).1 ≤ 1 := by
  unfold cavity_pair
  split_ifs
  · exact calc_cavity_factor_query_mem env st v hcav hcurve
  · norm_num

/-- C1: for every automasking cache configuration (any combination of
enabled mode flags, any numeric settings, any environment data) and
every vertex, the per-element factor query `factor_get` returns a value
in the closed interval `[0, 1]`.  The hypotheses state the standing
buffer invariants: the precomputed factor buffer and the cached cavity
buffer hold values in `[0, 1]` (which is how the precompute pass and
`calc_blurred_cavity` fill them), and the user cavity curve maps
`[0, 1]` into `[0, 1]`. -/
theorem factor_get_in_unit_interval (env : FactorEnv) (st : FactorState) (v : Nat)
    (orig : Option Vec3)
    (hbuf : ∀ u, 0 ≤ env.factor_attr u ∧ env.factor_attr u ≤ 1)
    (hcav : ∀ u, 0 ≤ st.cavity u ∧ st.cavity u ≤ 1)
    (hcurve : ∀ x, 0 ≤ x → x ≤ 1 → 0 ≤ env.curve_eval x ∧ env.curve_eval x ≤ 1) :
    0 ≤ (factor_get env st v orig).1 ∧ (factor_get env st v orig).1 ≤ 1 := by
  have hm := brush_mask_mem env v orig
  have hcavoc : 0 ≤ ((occlusion_pair env st v).2).cavity v ∧
      ((occlusion_pair env st v).2).cavity v ≤ 1 := by
    rw [occlusion_pair_cavity]; exact hcav v
  unfold factor_get
  simp only []
  split_ifs
  · simp only [automasking_factor_end_fst]
    exact unit_mul _ _ (unit_mul _ _ (hbuf v) (cavity_pair_mem env st v (hcav v) hcurve)) hm
  · simp only [automasking_factor_end_fst]
    exact ⟨le_refl 0, by norm_num⟩
  · exact ⟨le_refl 0, by norm_num⟩
  · exact ⟨le_refl 0, by norm_num⟩
  · exact ⟨le_refl 0, by norm_num⟩
  · exact ⟨le_refl 0, by norm_num⟩
  · simp only [automasking_factor_end_fst]
    exact unit_mul _ _ (view_mask_mul_mem env v orig _ hm)
      (cavity_pair_mem env _ v hcavoc hcurve)

/-- Sample factor-query environment used to instantiate theorems with
hypotheses at concrete inputs. -/
def envW : FactorEnv where
  settings :=
    { flags := BRUSH_AUTOMASKING_TOPOLOGY ||| BRUSH_AUTOMASKING_CAVITY_ALL |||
        BRUSH_AUTOMASKING_CAVITY_USE_CURVE ||| BRUSH_AUTOMASKING_VIEW_NORMAL |||
        BRUSH_AUTOMASKING_VIEW_OCCLUSION ||| BRUSH_AUTOMASKING_BRUSH_NORMAL
      initial_face_set := 1
      initial_island_nr := 0
      view_normal_limit := 1 / 2
      view_normal_falloff := 1 / 4
      start_normal_limit := 1 / 2
      start_normal_falloff := 1 / 4
      cavity_factor := 1
      cavity_blur_steps := 2
      topology_use_brush_limit := false }
  pi := 355 / 113
  has_stroke_cache := true
  has_filter_cache := false
  has_factor_attr := true
  has_stroke_id_attr := true
  factor_attr := fun _ => 1 / 2
  brush_angle := fun _ _ => 1 / 3
  view_angle := fun _ _ => 1 / 3
  vertex_occluded := fun _ => false
  island_id := fun _ => 0
  vert_has_face_set := fun _ _ => true
  vert_is_boundary := fun _ => false
  vert_has_unique_face_set := fun _ => true
  fs_boundary_ignore := fun _ => false
  cavity_raw := fun _ => 0
  curve_eval := fun x => x
  current_stroke_id := 3

/-- Sample factor-query state for the same purpose. -/
def stW : FactorState where
  stroke_id_stamp := fun _ => 0
  cavity := fun _ => 1 / 2
  occlusion := fun _ => 1

theorem factor_get_in_unit_interval_witness :
    0 ≤ (factor_get envW stW 0 none).1 ∧ (factor_get envW stW 0 none).1 ≤ 1 :=
  factor_get_in_unit_interval envW stW 0 none
    (fun _ => by norm_num [envW])
    (fun _ => by norm_num [stW])
    (fun x hx0 hx1 => by simpa [envW] using ⟨hx0, hx1⟩)

/-- C9: for a perfectly flat patch — the displacement between the
inner-ring centroid `sco1` and the outer-ring centroid `sco2` is
orthogonal to the outer averaged normal `sno2`, so the raw curvature
estimate of `calc_blurred_cavity` vanishes — the cavity factor stored
per vertex is exactly 1/2 before any curve remapping, for every blur
step count, every cavity-strength factor and either inversion flag
state (all carried by the arbitrary settings `s`). -/
theorem blurred_cavity_flat_is_half (s : FactorSettings) (sco1 sco2 sno2 : Vec3)
    (len1_sum : ℚ) (hflat : dot3 (sub3 sco1 sco2) sno2 = 0) :
    blurred_cavity_store s sco1 sco2 sno2 len1_sum = 1 / 2 := by
  unfold blurred_cavity_store calc_cavity_factor_value
  rw [hflat]
  simp only [zero_div, abs_zero, zero_mul, mul_zero, zero_add]
  norm_num [clampQ]

theorem blurred_cavity_flat_is_half_witness :
    blurred_cavity_store
      { flags := BRUSH_AUTOMASKING_CAVITY_ALL ||| BRUSH_AUTOMASKING_CAVITY_INVERTED
        initial_face_set := 0
        initial_island_nr := 0
        view_normal_limit := 0
        view_normal_falloff := 0
        start_normal_limit := 0
        start_normal_falloff := 0
        cavity_factor := 3
        cavity_blur_steps := 2
        topology_use_brush_limit := false }
      ⟨1, 2, 3⟩ ⟨1, 2, 0⟩ ⟨1, 0, 0⟩ 5 = 1 / 2 :=
  blurred_cavity_flat_is_half _ _ _ _ _ (by norm_num [dot3, sub3])

/-! ## Brushes and the topology flood-fill radius gate -/

inductive FalloffShape where
  | Sphere
  | Tube
deriving DecidableEq, Repr

inductive SculptBrushType where
  | Grab
  | Thumb
  | Rotate
  | Paint
  | Smear
  | Mask
  | DrawFaceSets
  | Draw
deriving DecidableEq, Repr

/-- One control point of the cavity curve, as the 32-bit words the
settings hash reads from it (`cm->curve[i].x/.y` are floats hashed via
their bit patterns, `.flag`/`.shorty` are integer fields). -/
structure CurvePointBits where
  x : Nat
  y : Nat
  flag : Nat
  shorty : Nat
deriving DecidableEq, Repr

/-- The brush fields the automasking code reads.  Float-valued fields
appear as the 32-bit words under which the settings hash consumes them
(`*reinterpret_cast<const uint *>(&...)`); the cavity curve appears as
its control-point words. -/
structure Brush where
  sculpt_brush_type : SculptBrushType
  falloff_shape : FalloffShape
  automasking_flags : Nat
  automasking_boundary_edges_propagation_steps : Int
  automasking_view_normal_limit : Nat
  automasking_view_normal_falloff : Nat
  automasking_start_normal_limit : Nat
  automasking_start_normal_falloff : Nat
  automasking_cavity_factor : Nat
  automasking_cavity_blur_steps : Int
  automasking_cavity_curve : Option (List CurvePointBits)
deriving DecidableEq, Repr

/-- `is_constrained_by_radius` (sculpt_automasking.cc:165): no brush or
a tube (2D) falloff is unconstrained; grab, thumb and rotate brushes
are constrained by the brush radius. -/
def is_constrained_by_radius : Option Brush → Bool
  | none => false
  | some br =>
    if br.falloff_shape = FalloffShape.Tube then false
    else if br.sculpt_brush_type = SculptBrushType.Grab ∨
        br.sculpt_brush_type = SculptBrushType.Thumb ∨
        br.sculpt_brush_type = SculptBrushType.Rotate then true
    else false

/-- Modelled from the spec: mirror-symmetry flip of a point across the
symmetry planes encoded by the bits of `i` (the spec's "active
mirror-symmetry transform", §4.3); the helper lives in sculpt.cc,
outside the excerpt. -/
def flip_v3 (v : Vec3) (i : Nat) : Vec3 :=
  ⟨if i &&& 1 ≠ 0 then -v.x else v.x,
   if i &&& 2 ≠ 0 then -v.y else v.y,
   if i &&& 4 ≠ 0 then -v.z else v.z⟩

/-- Modelled from the spec: `SCULPT_is_vertex_inside_brush_radius_symm`
(sculpt.cc, outside the excerpt) — the candidate lies within the
world-space brush radius of the seed location measured under the active
mirror-symmetry transform when some enabled symmetry image of the seed
is within `radius` of it (§4.3 distance-or-radius gating). -/
def is_vertex_inside_brush_radius_symm (vertex br_co : Vec3) (radius : ℚ)
    (symm : Nat) : Bool :=
  (List.range (symm + 1)).any fun i =>
    (i &&& symm == i) && decide (lenSq3 (flip_v3 br_co i) vertex < radius * radius)

/-- The `use_radius` flag of the topology flood fill
(sculpt_automasking.cc:736): set when a stroke cache exists and the
brush is radius-constrained. -/
def topology_fill_use_radius (has_stroke_cache : Bool) (brush : Option Brush) : Bool :=
  has_stroke_cache && is_constrained_by_radius brush

/-- The acceptance result of the traversal predicate passed to the
topology flood fill for the regular-mesh backend
(sculpt_automasking.cc:744-745); the factor writes the predicate also
performs are modelled separately by `fill_topology`.  The source
accepts when `use_radius` is set or the candidate position is within
the symmetric brush radius of the seed location. -/
def topology_fill_accept_mesh (use_radius : Bool) (to_pos location : Vec3)
    (radius : ℚ) (symm : Nat) : Bool :=
  use_radius || is_vertex_inside_brush_radius_symm to_pos location radius symm

/-- The bmesh variant of the same predicate result
(sculpt_automasking.cc:806-807); the source additionally tests the seed
vertex's own coordinate `active_vert->co` against the seed location
rather than the candidate's. -/
def topology_fill_accept_bmesh (use_radius : Bool) (active_vert_co location : Vec3)
    (radius : ℚ) (symm : Nat) : Bool :=
  use_radius || is_vertex_inside_brush_radius_symm active_vert_co location radius symm

/-- A grab brush with spherical falloff: radius-constrained per
`is_constrained_by_radius`. -/
def grabBrush : Brush where
  sculpt_brush_type := SculptBrushType.Grab
  falloff_shape := FalloffShape.Sphere
  automasking_flags := 0
  automasking_boundary_edges_propagation_steps := 1
  automasking_view_normal_limit := 0
  automasking_view_normal_falloff := 0
  automasking_start_normal_limit := 0
  automasking_start_normal_falloff := 0
  automasking_cavity_factor := 0
  automasking_cavity_blur_steps := 0
  automasking_cavity_curve := none

/-- C2: evaluation of the code at the claim's failing input.  With a
radius-constrained brush (grab type, spherical falloff) and an active
stroke cache, the flood-fill predicate accepts a candidate at
`(10,0,0)` although it lies far outside the brush radius 1 of the seed
at the origin with no symmetry enabled — the source computes
`use_radius || inside_radius`, so a radius-constrained brush disables
the radius gate and an unconstrained brush enables it, the reverse of
the claim (and of the intent documented by the comment on
`is_constrained_by_radius` and by `topology_use_brush_limit` in
`factor_get`). -/
theorem topology_fill_radius_gate_inverted :
    is_constrained_by_radius (some grabBrush) = true ∧
    is_vertex_inside_brush_radius_symm ⟨10, 0, 0⟩ ⟨0, 0, 0⟩ 1 0 = false ∧
    topology_fill_accept_mesh
      (topology_fill_use_radius true (some grabBrush)) ⟨10, 0, 0⟩ ⟨0, 0, 0⟩ 1 0 = true := by
  refine ⟨by decide, ?_, ?_⟩
  · simp only [is_vertex_inside_brush_radius_symm, List.range_succ, lenSq3, dot3, sub3, flip_v3]
    norm_num
  · simp [topology_fill_accept_mesh, topology_fill_use_radius, is_constrained_by_radius,
      grabBrush]

/-! ## Effective mode bits and settings resolution -/

/-- Clear the bits of `m` in `f` (the C `f &= ~m`). -/
def clearBits (f m : Nat) : Nat := f ^^^ (f &&& m)

/-- The tool-level `Sculpt` fields the automasking code reads.
Float-valued fields appear as the 32-bit words under which the settings
hash consumes them. -/
structure Sculpt where
  automasking_flags : Nat
  automasking_boundary_edges_propagation_steps : Int
  automasking_view_normal_limit : Nat
  automasking_view_normal_falloff : Nat
  automasking_start_normal_limit : Nat
  automasking_start_normal_falloff : Nat
  automasking_cavity_factor : Nat
  automasking_cavity_blur_steps : Int
  automasking_cavity_curve : Option (List CurvePointBits)
deriving DecidableEq, Repr

def brushFlags : Option Brush → Nat
  | some b => b.automasking_flags
  | none => 0

/-- `calc_effective_bits` (sculpt_automasking.cc:100): union of tool and
brush flags, with the whole cavity flag group overridden by whichever
level has a cavity mode set, brush taking precedence. -/
def calc_effective_bits (sd : Sculpt) : Option Brush → Nat
  | some brush =>
    let flags := sd.automasking_flags ||| brush.automasking_flags
    if testFlag brush.automasking_flags BRUSH_AUTOMASKING_CAVITY_ALL then
      clearBits flags (BRUSH_AUTOMASKING_CAVITY_ALL ||| BRUSH_AUTOMASKING_CAVITY_USE_CURVE |||
        BRUSH_AUTOMASKING_CAVITY_NORMAL) ||| brush.automasking_flags
    else if testFlag sd.automasking_flags BRUSH_AUTOMASKING_CAVITY_ALL then
      clearBits flags (BRUSH_AUTOMASKING_CAVITY_ALL ||| BRUSH_AUTOMASKING_CAVITY_USE_CURVE |||
        BRUSH_AUTOMASKING_CAVITY_NORMAL) ||| sd.automasking_flags
    else flags
  | none => sd.automasking_flags

/-- `mode_enabled` (sculpt_automasking.cc:59). -/
def mode_enabled (sd : Sculpt) (br : Option Brush) (mode : Nat) : Bool :=
  testFlag (sd.automasking_flags ||| brushFlags br) mode

/-- `is_enabled` (sculpt_automasking.cc:70); `stroke_is_dyntopo` is the
external dynamic-topology test, consulted only when a brush is given. -/
def is_enabled (sd : Sculpt) (stroke_is_dyntopo : Bool) (br : Option Brush) : Bool :=
  if br.isSome && stroke_is_dyntopo then false
  else
    mode_enabled sd br BRUSH_AUTOMASKING_TOPOLOGY ||
    mode_enabled sd br BRUSH_AUTOMASKING_FACE_SETS ||
    mode_enabled sd br BRUSH_AUTOMASKING_BOUNDARY_EDGES ||
    mode_enabled sd br BRUSH_AUTOMASKING_BOUNDARY_FACE_SETS ||
    mode_enabled sd br BRUSH_AUTOMASKING_BRUSH_NORMAL ||
    mode_enabled sd br BRUSH_AUTOMASKING_VIEW_NORMAL ||
    mode_enabled sd br BRUSH_AUTOMASKING_CAVITY_ALL

/-- `boundary_propagation_steps` (sculpt_automasking.cc:188): prefer the
brush value when the brush has a boundary mode flag of its own. -/
def boundary_propagation_steps (sd : Sculpt) : Option Brush → Int
  | some brush =>
    if testFlag brush.automasking_flags
        (BRUSH_AUTOMASKING_BOUNDARY_EDGES ||| BRUSH_AUTOMASKING_BOUNDARY_FACE_SETS) then
      brush.automasking_boundary_edges_propagation_steps
    else sd.automasking_boundary_edges_propagation_steps
  | none => sd.automasking_boundary_edges_propagation_steps

/-- `needs_factors_cache` (sculpt_automasking.cc:197): whether the
enabled modes require the per-vertex factor buffer to be precomputed. -/
def needs_factors_cache (sd : Sculpt) (brush : Option Brush) : Bool :=
  let automasking_flags := calc_effective_bits sd brush
  if testFlag automasking_flags BRUSH_AUTOMASKING_TOPOLOGY &&
      is_constrained_by_radius brush then true
  else if testFlag automasking_flags BRUSH_AUTOMASKING_VIEW_NORMAL then
    match brush with
    | some b => decide (b.automasking_boundary_edges_propagation_steps ≠ 1)
    | none => false
  else if testFlag automasking_flags
      (BRUSH_AUTOMASKING_BOUNDARY_EDGES ||| BRUSH_AUTOMASKING_BOUNDARY_FACE_SETS) then
    decide (boundary_propagation_steps sd brush ≠ 1)
  else false

/-- `brush_type_can_reuse_automask` (sculpt_automasking.cc:985): the
allow-list of brush types whose automask may be reused across strokes. -/
def brush_type_can_reuse_automask (t : SculptBrushType) : Bool :=
  decide (t = SculptBrushType.Paint ∨ t = SculptBrushType.Smear ∨
    t = SculptBrushType.Mask ∨ t = SculptBrushType.DrawFaceSets)

/-- The resolved automasking settings of a stroke.  Float-valued fields
appear as the 32-bit words under which `settings_hash` consumes them.
The boundary propagation step count is part of the spec's resolved
settings (spec §3 lists it in `AutomaskingSettings`; the struct
declaration itself sits in a header outside the excerpt) and is
resolved by `boundary_propagation_steps`; it is carried here so claims
about the hash can speak about it. -/
structure ResolvedSettings where
  flags : Nat
  initial_face_set : Int
  view_normal_limit : Nat
  view_normal_falloff : Nat
  start_normal_limit : Nat
  start_normal_falloff : Nat
  cavity_factor : Nat
  cavity_blur_steps : Int
  cavity_curve : Option (List CurvePointBits)
  boundary_steps : Int
deriving DecidableEq, Repr

/-- `cache_settings_update` (sculpt_automasking.cc:917): resolve the
effective settings, preferring brush-level values over tool-level
values per flag group; the initial face set comes from the session's
active face set. -/
def cache_settings_update (sd : Sculpt) (brush : Option Brush)
    (active_face_set : Int) : ResolvedSettings where
  flags := calc_effective_bits sd brush
  initial_face_set := active_face_set
  view_normal_limit :=
    match brush with
    | some b =>
      if testFlag b.automasking_flags BRUSH_AUTOMASKING_VIEW_NORMAL then
        b.automasking_view_normal_limit
      else sd.automasking_view_normal_limit
    | none => sd.automasking_view_normal_limit
  view_normal_falloff :=
    match brush with
    | some b =>
      if testFlag b.automasking_flags BRUSH_AUTOMASKING_VIEW_NORMAL then
        b.automasking_view_normal_falloff
      else sd.automasking_view_normal_falloff
    | none => sd.automasking_view_normal_falloff
  start_normal_limit :=
    match brush with
    | some b =>
      if testFlag b.automasking_flags BRUSH_AUTOMASKING_BRUSH_NORMAL then
        b.automasking_start_normal_limit
      else sd.automasking_start_normal_limit
    | none => sd.automasking_start_normal_limit
  start_normal_falloff :=
    match brush with
    | some b =>
      if testFlag b.automasking_flags BRUSH_AUTOMASKING_BRUSH_NORMAL then
        b.automasking_start_normal_falloff
      else sd.automasking_start_normal_falloff
    | none => sd.automasking_start_normal_falloff
  cavity_factor :=
    match brush with
    | some b =>
      if testFlag b.automasking_flags BRUSH_AUTOMASKING_CAVITY_ALL then
        b.automasking_cavity_factor
      else sd.automasking_cavity_factor
    | none => sd.automasking_cavity_factor
  cavity_blur_steps :=
    match brush with
    | some b =>
      if testFlag b.automasking_flags BRUSH_AUTOMASKING_CAVITY_ALL then
        b.automasking_cavity_blur_steps
      else sd.automasking_cavity_blur_steps
    | none => sd.automasking_cavity_blur_steps
  cavity_curve :=
    match brush with
    | some b =>
      if testFlag b.automasking_flags BRUSH_AUTOMASKING_CAVITY_ALL then
        b.automasking_cavity_curve
      else sd.automasking_cavity_curve
    | none => sd.automasking_cavity_curve
  boundary_steps := boundary_propagation_steps sd brush

/-- Two's-complement 32-bit word of an int, as the C `uint` casts used
by the hash. -/
def toU32 (i : Int) : Nat := (i % (2 ^ 32 : Nat)).toNat

/-- `settings_hash` (sculpt_automasking.cc:461).  The mixing function
`mix` stands for `BLI_hash_int_2d` (`BLI_hash.h`, outside the excerpt;
modelled from the spec, which calls the whole thing a content hash —
every claim depends only on which fields are mixed, so the mixer is
kept abstract); `BLI_hash_int k` is `mix k 0`.  The hashed fields and
their order follow the source: flag bits, vertex count, then — gated by
the mode flags — the cavity blur steps, strength word and curve control
points, the initial face set, and the view and brush normal words.
`boundary_steps` is never read. -/
def settings_hash (mix : Nat → Nat → Nat) (totvert : Nat) (s : ResolvedSettings) : Nat :=
  let hash := mix s.flags 0
  let hash := mix hash totvert
  let hash :=
    if testFlag s.flags BRUSH_AUTOMASKING_CAVITY_ALL then
      let hash := mix hash (toU32 s.cavity_blur_steps)
      let hash := mix hash s.cavity_factor
      match s.cavity_curve with
      | some pts =>
        pts.foldl (fun h p => mix (mix (mix (mix h p.x) p.y) p.flag) p.shorty) hash
      | none => hash
    else hash
  let hash :=
    if testFlag s.flags BRUSH_AUTOMASKING_FACE_SETS then
      mix hash (toU32 s.initial_face_set)
    else hash
  let hash :=
    if testFlag s.flags BRUSH_AUTOMASKING_VIEW_NORMAL then
      mix (mix hash s.view_normal_falloff) s.view_normal_limit
    else hash
  if testFlag s.flags BRUSH_AUTOMASKING_BRUSH_NORMAL then
    mix (mix hash s.start_normal_falloff) s.start_normal_limit
  else hash

/-- A concrete mixing function standing in for `BLI_hash_int_2d` in
evaluated instances. -/
def mixC (a b : Nat) : Nat := a * 1000003 + b

/-- Resolved settings with the boundary-edges mode enabled and
propagation step count 1. -/
def hashSettingsA : ResolvedSettings where
  flags := BRUSH_AUTOMASKING_BOUNDARY_EDGES ||| BRUSH_AUTOMASKING_FACE_SETS
  initial_face_set := 2
  view_normal_limit := 0
  view_normal_falloff := 0
  start_normal_limit := 0
  start_normal_falloff := 0
  cavity_factor := 0
  cavity_blur_steps := 0
  cavity_curve := none
  boundary_steps := 1

/-- The same settings with propagation step count 5. -/
def hashSettingsB : ResolvedSettings :=
  { hashSettingsA with boundary_steps := 5 }

/-- C4 counterexample: two resolved settings that differ only in the
boundary propagation step count (1 versus 5, with the boundary-edges
mode among the enabled flags) produce the same settings hash — the hash
never reads the boundary numeric parameter, so the difference is not
reflected, contrary to the claim. -/
theorem settings_hash_boundary_steps_not_reflected :
    hashSettingsA.boundary_steps ≠ hashSettingsB.boundary_steps ∧
    hashSettingsA.flags = hashSettingsB.flags ∧
    hashSettingsA.initial_face_set = hashSettingsB.initial_face_set ∧
    hashSettingsA.cavity_curve = hashSettingsB.cavity_curve ∧
    hashSettingsA.cavity_factor = hashSettingsB.cavity_factor ∧
    hashSettingsA.cavity_blur_steps = hashSettingsB.cavity_blur_steps ∧
    hashSettingsA.view_normal_limit = hashSettingsB.view_normal_limit ∧
    hashSettingsA.view_normal_falloff = hashSettingsB.view_normal_falloff ∧
    hashSettingsA.start_normal_limit = hashSettingsB.start_normal_limit ∧
    hashSettingsA.start_normal_falloff = hashSettingsB.start_normal_falloff ∧
    settings_hash mixC 8 hashSettingsA = settings_hash mixC 8 hashSettingsB := by
  decide

/-- C4 amended: the settings hash is a function of exactly the flag
bits, the vertex count, and — gated by the corresponding mode flags —
the cavity parameters including the curve control points, the face-set
id, and the view and brush normal parameters: any two resolved settings
agreeing on these fields hash equal, for every mixing function and
vertex count, with no agreement required on the boundary propagation
step count (which the hash never reads). -/
theorem settings_hash_congruence (mix : Nat → Nat → Nat) (tv : Nat)
    (s1 s2 : ResolvedSettings)
    (hflags : s1.flags = s2.flags)
    (hfs : s1.initial_face_set = s2.initial_face_set)
    (hvl : s1.view_normal_limit = s2.view_normal_limit)
    (hvf : s1.view_normal_falloff = s2.view_normal_falloff)
    (hsl : s1.start_normal_limit = s2.start_normal_limit)
    (hsf : s1.start_normal_falloff = s2.start_normal_falloff)
    (hcf : s1.cavity_factor = s2.cavity_factor)
    (hcb : s1.cavity_blur_steps = s2.cavity_blur_steps)
    (hcc : s1.cavity_curve = s2.cavity_curve) :
    settings_hash mix tv s1 = settings_hash mix tv s2 := by
  unfold settings_hash
  rw [hflags, hfs, hvl, hvf, hsl, hsf, hcf, hcb, hcc]

theorem settings_hash_congruence_witness :
    settings_hash mixC 8 hashSettingsA = settings_hash mixC 8 hashSettingsB :=
  settings_hash_congruence mixC 8 hashSettingsA hashSettingsB
    rfl rfl rfl rfl rfl rfl rfl rfl rfl

/-! ## Cache initialisation: stroke-id reuse and the precompute decision -/

/-- The session fields `cache_init` reads. -/
structure SessionPre where
  stroke_id : Nat
  last_automasking_settings_hash : Nat
  last_automask_stroke_id : Nat
  active_face_set : Int
  totvert : Nat
  stroke_is_dyntopo : Bool
deriving DecidableEq, Repr

/-- The observable outcome of `cache_init`: the resolved settings, the
cache's stroke id, the reuse mark, the session's last-automask-stroke
id after initialisation, and whether the factor-buffer precompute block
executes. -/
structure CacheInit where
  settings : ResolvedSettings
  current_stroke_id : Nat
  can_reuse_mask : Bool
  session_last_automask_stroke_id : Nat
  runs_precompute : Bool
deriving DecidableEq, Repr

/-- `cache_init` (sculpt_automasking.cc:999), reduced to the control
logic under study: settings resolution, the stroke-id bookkeeping with
the reuse-by-hash decision (sculpt_automasking.cc:1061-1081), and the
precompute decision (sculpt_automasking.cc:1085).  The attribute-ensure
calls, island bookkeeping and the precompute passes themselves are
modelled separately (`factor_buffer_init`, `fill_topology`,
`init_boundary_masking`).  Returns `none` when no automasking mode is
enabled, as the source returns a null cache. -/
def cache_init (mix : Nat → Nat → Nat) (sd : Sculpt) (brush : Option Brush)
    (ss : SessionPre) : Option CacheInit :=
  if !is_enabled sd ss.stroke_is_dyntopo brush then none
  else
    let settings := cache_settings_update sd brush ss.active_face_set
    let mode := calc_effective_bits sd brush
    let have_occlusion := testFlag mode BRUSH_AUTOMASKING_VIEW_OCCLUSION &&
      testFlag mode BRUSH_AUTOMASKING_VIEW_NORMAL
    let use_stroke_id := have_occlusion || testFlag mode BRUSH_AUTOMASKING_CAVITY_ALL
    let can_reuse := use_stroke_id &&
      (match brush with
       | some b => brush_type_can_reuse_automask b.sculpt_brush_type
       | none => false) &&
      !have_occlusion &&
      (settings_hash mix ss.totvert settings == ss.last_automasking_settings_hash)
    some
      { settings := settings
        current_stroke_id := if can_reuse then ss.last_automask_stroke_id else ss.stroke_id
        can_reuse_mask := can_reuse
        session_last_automask_stroke_id :=
          if use_stroke_id && !can_reuse then ss.stroke_id else ss.last_automask_stroke_id
        runs_precompute := needs_factors_cache sd brush }

/-- A paint brush: allow-listed for automask reuse, no brush-level
automasking flags of its own. -/
def paintBrush : Brush where
  sculpt_brush_type := SculptBrushType.Paint
  falloff_shape := FalloffShape.Sphere
  automasking_flags := 0
  automasking_boundary_edges_propagation_steps := 1
  automasking_view_normal_limit := 0
  automasking_view_normal_falloff := 0
  automasking_start_normal_limit := 0
  automasking_start_normal_falloff := 0
  automasking_cavity_factor := 0
  automasking_cavity_blur_steps := 0
  automasking_cavity_curve := none

/-- Tool settings with only the boundary-edges mode, propagation step
count 2. -/
def sdBoundary : Sculpt where
  automasking_flags := BRUSH_AUTOMASKING_BOUNDARY_EDGES
  automasking_boundary_edges_propagation_steps := 2
  automasking_view_normal_limit := 0
  automasking_view_normal_falloff := 0
  automasking_start_normal_limit := 0
  automasking_start_normal_falloff := 0
  automasking_cavity_factor := 0
  automasking_cavity_blur_steps := 0
  automasking_cavity_curve := none

/-- A session whose stored hash equals the hash of the settings that
`cache_init` resolves for `sdBoundary` with `paintBrush`. -/
def ssBoundary : SessionPre where
  stroke_id := 5
  last_automasking_settings_hash :=
    settings_hash mixC 8 (cache_settings_update sdBoundary (some paintBrush) 1)
  last_automask_stroke_id := 3
  active_face_set := 1
  totvert := 8
  stroke_is_dyntopo := false

/-- C3 counterexample: an allow-listed paint brush, no joint
occlusion+view-normal request, and a resolved-settings hash equal to
the session's stored hash — yet with only the boundary-edges mode
enabled the code performs no reuse: the new cache keeps the fresh
stroke id 5 instead of adopting the previous stroke's id 3, is not
marked reusable, and the precompute pass still runs (propagation steps
2 ≠ 1 forces the factor cache).  The reuse block is guarded by
`use_stroke_id`, which only a cavity mode or the (excluded)
occlusion+view-normal combination can set, and precompute skipping is
decided solely by `needs_factors_cache`. -/
theorem cache_init_reuse_not_by_hash_alone :
    brush_type_can_reuse_automask paintBrush.sculpt_brush_type = true ∧
    (testFlag (calc_effective_bits sdBoundary (some paintBrush))
        BRUSH_AUTOMASKING_VIEW_OCCLUSION &&
      testFlag (calc_effective_bits sdBoundary (some paintBrush))
        BRUSH_AUTOMASKING_VIEW_NORMAL) = false ∧
    settings_hash mixC ssBoundary.totvert
        (cache_settings_update sdBoundary (some paintBrush) ssBoundary.active_face_set) =
      ssBoundary.last_automasking_settings_hash ∧
    cache_init mixC sdBoundary (some paintBrush) ssBoundary =
      some { settings := cache_settings_update sdBoundary (some paintBrush) 1
             current_stroke_id := 5
             can_reuse_mask := false
             session_last_automask_stroke_id := 3
             runs_precompute := true } := by
  decide

/-- C3 amended: at cache initialisation with an enabled automasking
configuration, if additionally a cavity mode is among the effective
modes (so that stroke-id bookkeeping is active), the brush type is in
the allow-list, and no joint occlusion+view-normal combination is
requested, then: the cache adopts the previous stroke's stroke id and
is marked reusable exactly when the content hash of the resolved
settings equals the session's stored hash, and otherwise keeps the
fresh stroke id, which is then recorded as the session's last automask
stroke id; whether the precompute pass runs is decided solely by
`needs_factors_cache`, independent of the hash comparison. -/
theorem cache_init_reuse_rule (mix : Nat → Nat → Nat) (sd : Sculpt) (b : Brush)
    (ss : SessionPre)
    (hen : is_enabled sd ss.stroke_is_dyntopo (some b) = true)
    (hallow : brush_type_can_reuse_automask b.sculpt_brush_type = true)
    (hcav : testFlag (calc_effective_bits sd (some b)) BRUSH_AUTOMASKING_CAVITY_ALL = true)
    (hnoocc : (testFlag (calc_effective_bits sd (some b)) BRUSH_AUTOMASKING_VIEW_OCCLUSION &&
        testFlag (calc_effective_bits sd (some b)) BRUSH_AUTOMASKING_VIEW_NORMAL) = false) :
    cache_init mix sd (some b) ss =
      some { settings := cache_settings_update sd (some b) ss.active_face_set
             current_stroke_id :=
               if settings_hash mix ss.totvert
                     (cache_settings_update sd (some b) ss.active_face_set) ==
                   ss.last_automasking_settings_hash then
                 ss.last_automask_stroke_id
               else ss.stroke_id
             can_reuse_mask :=
               settings_hash mix ss.totvert
                   (cache_settings_update sd (some b) ss.active_face_set) ==
                 ss.last_automasking_settings_hash
             session_last_automask_stroke_id :=
               if settings_hash mix ss.totvert
                     (cache_settings_update sd (some b) ss.active_face_set) ==
                   ss.last_automasking_settings_hash then
                 ss.last_automask_stroke_id
               else ss.stroke_id
             runs_precompute := needs_factors_cache sd (some b) } := by
  unfold cache_init
  rw [hen]
  simp [hcav, hnoocc, hallow]

/-- Tool settings with only the cavity-normal mode enabled. -/
def sdCav : Sculpt where
  automasking_flags := BRUSH_AUTOMASKING_CAVITY_NORMAL
  automasking_boundary_edges_propagation_steps := 1
  automasking_view_normal_limit := 0
  automasking_view_normal_falloff := 0
  automasking_start_normal_limit := 0
  automasking_start_normal_falloff := 0
  automasking_cavity_factor := 7
  automasking_cavity_blur_steps := 2
  automasking_cavity_curve := none

/-- A session whose stored hash equals the hash of the settings that
`cache_init` resolves for `sdCav` with `paintBrush`. -/
def ssCav : SessionPre where
  stroke_id := 7
  last_automasking_settings_hash :=
    settings_hash mixC 8 (cache_settings_update sdCav (some paintBrush) 1)
  last_automask_stroke_id := 4
  active_face_set := 1
  totvert := 8
  stroke_is_dyntopo := false

theorem cache_init_reuse_rule_witness :
    cache_init mixC sdCav (some paintBrush) ssCav =
      some { settings := cache_settings_update sdCav (some paintBrush) ssCav.active_face_set
             current_stroke_id :=
               if settings_hash mixC ssCav.totvert
                     (cache_settings_update sdCav (some paintBrush) ssCav.active_face_set) ==
                   ssCav.last_automasking_settings_hash then
                 ssCav.last_automask_stroke_id
               else ssCav.stroke_id
             can_reuse_mask :=
               settings_hash mixC ssCav.totvert
                   (cache_settings_update sdCav (some paintBrush) ssCav.active_face_set) ==
                 ssCav.last_automasking_settings_hash
             session_last_automask_stroke_id :=
               if settings_hash mixC ssCav.totvert
                     (cache_settings_update sdCav (some paintBrush) ssCav.active_face_set) ==
                   ssCav.last_automasking_settings_hash then
                 ssCav.last_automask_stroke_id
               else ssCav.stroke_id
             runs_precompute := needs_factors_cache sdCav (some paintBrush) } :=
  cache_init_reuse_rule mixC sdCav paintBrush ssCav
    (by decide) (by decide) (by decide) (by decide)

/-! ## Factor buffer initialisation and topology seeding -/

/-- The initial value of the stroke-scoped factor buffer
(sculpt_automasking.cc:1104): 1 unless the topology mode is among the
effective enabled modes, in which case 0. -/
def factor_initial_value (mode : Nat) : ℚ :=
  if !testFlag mode BRUSH_AUTOMASKING_TOPOLOGY then 1 else 0

/-- The initialisation loop (sculpt_automasking.cc:1106-1111): every
vertex of the stroke-scoped factor buffer holds the initial value. -/
def factor_buffer_init (mode : Nat) : Nat → ℚ := fun _ => factor_initial_value mode

/-- The factor writes of the topology flood-fill predicate
(sculpt_automasking.cc:742-743): each edge handed to the predicate
writes factor 1 at both endpoints, `to_v` then `from_v`. -/
def topology_seed_edge (b : Nat → ℚ) (from_v to_v : Nat) : Nat → ℚ :=
  updQ (updQ b to_v 1) from_v 1

/-- The flood-fill engine (sculpt_flood_fill.cc, outside the excerpt)
feeds a sequence of (from, to) pairs to the predicate; the factor
buffer after the topology pass is the fold of the per-edge writes. -/
def fill_topology (b : Nat → ℚ) (edges : List (Nat × Nat)) : Nat → ℚ :=
  edges.foldl (fun b e => topology_seed_edge b e.1 e.2) b

theorem topology_seed_edge_touch (b : Nat → ℚ) (f t v : Nat) (h : f = v ∨ t = v) :
    topology_seed_edge b f t v = 1 := by
  unfold topology_seed_edge updQ
  rcases h with h | h <;> subst h <;> simp

theorem topology_seed_edge_skip (b : Nat → ℚ) (f t v : Nat) (hf : f ≠ v) (ht : t ≠ v) :
    topology_seed_edge b f t v = b v := by
  unfold topology_seed_edge updQ
  simp [Ne.symm hf, Ne.symm ht]

theorem fill_topology_keeps_one (b : Nat → ℚ) (edges : List (Nat × Nat)) (v : Nat)
    (hb : b v = 1) : fill_topology b edges v = 1 := by
  induction edges generalizing b with
  | nil => exact hb
  | cons e l ih =>
    apply ih
    show topology_seed_edge b e.1 e.2 v = 1
    by_cases hf : e.1 = v
    · exact topology_seed_edge_touch b e.1 e.2 v (Or.inl hf)
    · by_cases ht : e.2 = v
      · exact topology_seed_edge_touch b e.1 e.2 v (Or.inr ht)
      · rw [topology_seed_edge_skip b e.1 e.2 v hf ht]; exact hb

theorem fill_topology_visited (b : Nat → ℚ) (edges : List (Nat × Nat)) (v : Nat)
    (h : ∃ e ∈ edges, e.1 = v ∨ e.2 = v) : fill_topology b edges v = 1 := by
  induction edges generalizing b with
  | nil => exact absurd h (by simp)
  | cons e l ih =>
    by_cases he : e.1 = v ∨ e.2 = v
    · exact fill_topology_keeps_one _ l v (topology_seed_edge_touch b e.1 e.2 v he)
    · rcases h with ⟨e2, he2, hv⟩
      rcases List.mem_cons.1 he2 with rfl | hmem
      · exact absurd hv he
      · exact ih _ ⟨e2, hmem, hv⟩

theorem fill_topology_untouched (b : Nat → ℚ) (edges : List (Nat × Nat)) (v : Nat)
    (h : ∀ e ∈ edges, e.1 ≠ v ∧ e.2 ≠ v) : fill_topology b edges v = b v := by
  induction edges generalizing b with
  | nil => rfl
  | cons e l ih =>
    have he := h e (List.mem_cons_self e l)
    have : fill_topology (topology_seed_edge b e.1 e.2) l v =
        topology_seed_edge b e.1 e.2 v :=
      ih _ (fun e2 h2 => h e2 (List.mem_cons_of_mem e h2))
    rw [show fill_topology b (e :: l) v =
        fill_topology (topology_seed_edge b e.1 e.2) l v from rfl, this,
      topology_seed_edge_skip b e.1 e.2 v he.1 he.2]

/-- C6: when the precompute pass runs, the stroke-scoped factor buffer
is initialised, at every vertex, to 0 when the topology mode is among
the effective enabled modes and to 1 otherwise; every vertex touched by
an edge the topology flood fill processes is then seeded with factor 1,
while vertices the flood fill never touches keep their initial value. -/
theorem factor_buffer_init_and_topology_seed (sd : Sculpt) (brush : Option Brush)
    (edges : List (Nat × Nat)) (v : Nat) :
    (factor_buffer_init (calc_effective_bits sd brush) v =
      if testFlag (calc_effective_bits sd brush) BRUSH_AUTOMASKING_TOPOLOGY then 0 else 1) ∧
    ((∃ e ∈ edges, e.1 = v ∨ e.2 = v) →
      fill_topology (factor_buffer_init (calc_effective_bits sd brush)) edges v = 1) ∧
    ((∀ e ∈ edges, e.1 ≠ v ∧ e.2 ≠ v) →
      fill_topology (factor_buffer_init (calc_effective_bits sd brush)) edges v =
        factor_buffer_init (calc_effective_bits sd brush) v) := by
  refine ⟨?_, fill_topology_visited _ edges v, fill_topology_untouched _ edges v⟩
  unfold factor_buffer_init factor_initial_value
  by_cases h : testFlag (calc_effective_bits sd brush) BRUSH_AUTOMASKING_TOPOLOGY <;>
    simp [h]

/-- Tool settings with only the topology mode enabled. -/
def sdTopo : Sculpt where
  automasking_flags := BRUSH_AUTOMASKING_TOPOLOGY
  automasking_boundary_edges_propagation_steps := 1
  automasking_view_normal_limit := 0
  automasking_view_normal_falloff := 0
  automasking_start_normal_limit := 0
  automasking_start_normal_falloff := 0
  automasking_cavity_factor := 0
  automasking_cavity_blur_steps := 0
  automasking_cavity_curve := none

theorem factor_buffer_init_and_topology_seed_witness :
    (factor_buffer_init (calc_effective_bits sdTopo none) 2 =
      if testFlag (calc_effective_bits sdTopo none) BRUSH_AUTOMASKING_TOPOLOGY then 0 else 1) ∧
    fill_topology (factor_buffer_init (calc_effective_bits sdTopo none)) [(0, 1), (1, 2)] 2 = 1 ∧
    fill_topology (factor_buffer_init (calc_effective_bits sdTopo none)) [(0, 1), (1, 2)] 5 =
      factor_buffer_init (calc_effective_bits sdTopo none) 5 :=
  ⟨(factor_buffer_init_and_topology_seed sdTopo none [(0, 1), (1, 2)] 2).1,
   (factor_buffer_init_and_topology_seed sdTopo none [(0, 1), (1, 2)] 2).2.1
     ⟨(1, 2), by simp, Or.inr rfl⟩,
   (factor_buffer_init_and_topology_seed sdTopo none [(0, 1), (1, 2)] 5).2.2 (by decide)⟩

/-! ## Boundary automasking (`init_boundary_masking`) -/

def EDGE_DISTANCE_INF : Int := -1

inductive BoundaryAutomaskMode where
  | Edges
  | FaceSets
deriving DecidableEq, Repr

/-- The mesh data `init_boundary_masking` consumes: the vertex count,
the neighbour iteration, and the two external boundary predicates the
mode switch consults. -/
structure BoundaryEnv where
  totvert : Nat
  nbrs : Nat → List Nat
  vert_is_boundary : Nat → Bool
  vert_has_unique_face_set : Nat → Bool

/-- The seeding loop (sculpt_automasking.cc:867-883): distance 0 at
boundary elements of the chosen mode, `EDGE_DISTANCE_INF` elsewhere. -/
def boundary_seed (e : BoundaryEnv) (mode : BoundaryAutomaskMode) : Nat → Int :=
  fun i =>
    match mode with
    | BoundaryAutomaskMode.Edges =>
      if e.vert_is_boundary i then 0 else EDGE_DISTANCE_INF
    | BoundaryAutomaskMode.FaceSets =>
      if !e.vert_has_unique_face_set i then 0 else EDGE_DISTANCE_INF

/-- One vertex step of the relaxation (sculpt_automasking.cc:886-899):
a still-unlabelled vertex with a neighbour labelled `it` becomes
`it + 1`; the array is updated in place, as in the source. -/
def relax_vert (e : BoundaryEnv) (it : Int) (d : Nat → Int) (i : Nat) : Nat → Int :=
  if d i ≠ EDGE_DISTANCE_INF then d
  else if (e.nbrs i).any (fun j => d j == it) then updInt d i (it + 1)
  else d

/-- One full pass of the relaxation over all vertices. -/
def relax_pass (e : BoundaryEnv) (it : Int) (d : Nat → Int) : Nat → Int :=
  (List.range e.totvert).foldl (relax_vert e it) d

/-- The distance labels after `propagation_steps` relaxation passes. -/
def edge_distances (e : BoundaryEnv) (mode : BoundaryAutomaskMode)
    (propagation_steps : Nat) : Nat → Int :=
  (List.range propagation_steps).foldl
    (fun d (it : Nat) => relax_pass e (it : Int) d) (boundary_seed e mode)

/-- `init_boundary_masking` (sculpt_automasking.cc:860) as the map from
the prior factor buffer to the new one: labelled vertices are scaled by
`1 - (1 - d/steps)^2` (the final loop, sculpt_automasking.cc:902-913);
unlabelled vertices are skipped. -/
def init_boundary_masking (e : BoundaryEnv) (mode : BoundaryAutomaskMode)
    (steps : Nat) (factor0 : Nat → ℚ) : Nat → ℚ :=
  let d := edge_distances e mode steps
  fun i =>
    if i < e.totvert then
      if d i = EDGE_DISTANCE_INF then factor0 i
      else factor0 i * (1 - (1 - (d i : ℚ) / (steps : ℚ)) ^ 2)
    else factor0 i

theorem foldl_preserve {α β : Type} (P : β → Prop) (f : β → α → β) :
    ∀ (l : List α) (b : β), (∀ b2 a, a ∈ l → P b2 → P (f b2 a)) → P b → P (l.foldl f b)
  | [], _, _, hb => hb
  | a :: l, b, h, hb =>
    foldl_preserve P f l (f b a)
      (fun b2 a2 ha2 => h b2 a2 (List.mem_cons_of_mem _ ha2))
      (h b a (List.mem_cons_self _ _) hb)

theorem boundary_seed_bound (e : BoundaryEnv) (mode : BoundaryAutomaskMode)
    (B : Int) (hB : 0 ≤ B) (i : Nat) :
    boundary_seed e mode i = -1 ∨
      (0 ≤ boundary_seed e mode i ∧ boundary_seed e mode i ≤ B) := by
  unfold boundary_seed EDGE_DISTANCE_INF
  cases mode <;> split_ifs <;> simp <;> omega

theorem relax_vert_bound (e : BoundaryEnv) (it B : Int) (hit0 : 0 ≤ it)
    (hit : it + 1 ≤ B) (d : Nat → Int)
    (hd : ∀ k, d k = -1 ∨ (0 ≤ d k ∧ d k ≤ B)) (i k : Nat) :
    relax_vert e it d i k = -1 ∨
      (0 ≤ relax_vert e it d i k ∧ relax_vert e it d i k ≤ B) := by
  unfold relax_vert
  split_ifs with h1 h2
  · exact hd k
  · by_cases hk : k = i
    · subst hk
      rw [updInt_same]
      omega
    · rw [updInt_other _ _ _ _ hk]
      exact hd k
  · exact hd k

theorem edge_distances_bound (e : BoundaryEnv) (mode : BoundaryAutomaskMode)
    (steps : Nat) (k : Nat) :
    edge_distances e mode steps k = -1 ∨
      (0 ≤ edge_distances e mode steps k ∧
        edge_distances e mode steps k ≤ (steps : Int)) := by
  unfold edge_distances
  refine foldl_preserve
    (fun d => ∀ k2, d k2 = -1 ∨ (0 ≤ d k2 ∧ d k2 ≤ (steps : Int)))
    _ (List.range steps) (boundary_seed e mode) ?_
    (boundary_seed_bound e mode (steps : Int) (by positivity)) k
  intro d it hit hd
  unfold relax_pass
  refine foldl_preserve
    (fun d2 => ∀ k2, d2 k2 = -1 ∨ (0 ≤ d2 k2 ∧ d2 k2 ≤ (steps : Int)))
    _ (List.range e.totvert) d ?_ hd
  intro d2 i _ hd2 k2
  have hitlt : it < steps := List.mem_range.1 hit
  exact relax_vert_bound e (it : Int) (steps : Int) (by omega) (by omega) d2 hd2 i k2

/-- C5: in boundary automasking with propagation step count
`steps ≥ 1`, every vertex carrying a computed distance label `d` (the
multi-step breadth-first relaxation of the source; `-1` marks vertices
beyond the propagation horizon) satisfies `0 ≤ d ≤ steps` and has its
factor multiplied by exactly `1 - ((1 - d/steps)^2)` — in particular a
boundary vertex (`d = 0`) ends with factor 0 — while every vertex
beyond the horizon keeps its prior factor unchanged. -/
theorem init_boundary_masking_spec (e : BoundaryEnv) (mode : BoundaryAutomaskMode)
    (steps : Nat) (factor0 : Nat → ℚ) (hsteps : 1 ≤ steps) (i : Nat)
    (hi : i < e.totvert) :
    (edge_distances e mode steps i = EDGE_DISTANCE_INF →
      init_boundary_masking e mode steps factor0 i = factor0 i) ∧
    (edge_distances e mode steps i ≠ EDGE_DISTANCE_INF →
      0 ≤ edge_distances e mode steps i ∧
      edge_distances e mode steps i ≤ (steps : Int) ∧
      init_boundary_masking e mode steps factor0 i =
        factor0 i * (1 - (1 - (edge_distances e mode steps i : ℚ) / (steps : ℚ)) ^ 2) ∧
      (edge_distances e mode steps i = 0 →
        init_boundary_masking e mode steps factor0 i = 0)) := by
  have hbound := edge_distances_bound e mode steps i
  constructor
  · intro hinf
    unfold init_boundary_masking
    simp only [if_pos hi, if_pos hinf]
  · intro hne
    have hb : 0 ≤ edge_distances e mode steps i ∧
        edge_distances e mode steps i ≤ (steps : Int) := by
      rcases hbound with h | h
      · exact absurd h hne
      · exact h
    refine ⟨hb.1, hb.2, ?_, ?_⟩
    · unfold init_boundary_masking
      simp only [if_pos hi, if_neg hne]
    · intro h0
      unfold init_boundary_masking
      simp only [if_pos hi, if_neg hne]
      rw [h0]
      norm_num

/-- A path graph 0 – 1 – 2 – 3 whose vertex 0 is a boundary vertex. -/
def pathEnv : BoundaryEnv where
  totvert := 4
  nbrs := fun i =>
    if i = 0 then [1] else if i = 1 then [0, 2] else if i = 2 then [1, 3]
    else if i = 3 then [2] else []
  vert_is_boundary := fun i => i == 0
  vert_has_unique_face_set := fun _ => true

theorem init_boundary_masking_spec_witness :
    (edge_distances pathEnv BoundaryAutomaskMode.Edges 2 1 = EDGE_DISTANCE_INF →
      init_boundary_masking pathEnv BoundaryAutomaskMode.Edges 2 (fun _ => 1) 1 =
        (fun _ => (1 : ℚ)) 1) ∧
    (edge_distances pathEnv BoundaryAutomaskMode.Edges 2 1 ≠ EDGE_DISTANCE_INF →
      0 ≤ edge_distances pathEnv BoundaryAutomaskMode.Edges 2 1 ∧
      edge_distances pathEnv BoundaryAutomaskMode.Edges 2 1 ≤ (2 : Int) ∧
      init_boundary_masking pathEnv BoundaryAutomaskMode.Edges 2 (fun _ => 1) 1 =
        (fun _ => (1 : ℚ)) 1 *
          (1 - (1 - (edge_distances pathEnv BoundaryAutomaskMode.Edges 2 1 : ℚ) /
            ((2 : Nat) : ℚ)) ^ 2) ∧
      (edge_distances pathEnv BoundaryAutomaskMode.Edges 2 1 = 0 →
        init_boundary_masking pathEnv BoundaryAutomaskMode.Edges 2 (fun _ => 1) 1 = 0)) :=
  init_boundary_masking_spec pathEnv BoundaryAutomaskMode.Edges 2 (fun _ => 1)
    (by decide) 1 (by decide)

/-! ## Batch face factors (`calc_face_factors`)

The per-face loop of `calc_face_factors` queries `factor_get` for every
corner vertex (threading the per-vertex attribute state) and multiplies
the face factor by the mean.  To relate the threaded queries to
independent ones, `factor_get`'s result is first shown to be a pure
function of the state at the queried vertex, and requerying a vertex is
shown to return the same value. -/

theorem automasking_factor_end_snd (env : FactorEnv) (st : FactorState) (v : Nat) (x : ℚ) :
    (automasking_factor_end env st v x).2 =
      if env.has_stroke_id_attr then
        { st with stroke_id_stamp := updNat st.stroke_id_stamp v env.current_stroke_id }
      else st := by
  unfold automasking_factor_end
  split_ifs <;> rfl

theorem calc_view_occlusion_factor_snd (env : FactorEnv) (st : FactorState) (v : Nat)
    (sid : Nat) :
    (calc_view_occlusion_factor env st v sid).2 =
      if sid ≠ env.current_stroke_id then
        { st with occlusion := updInt st.occlusion v (if env.vertex_occluded v then 2 else 1) }
      else st := by
  unfold calc_view_occlusion_factor
  split_ifs <;> rfl

theorem calc_view_occlusion_factor_fst (env : FactorEnv) (st : FactorState) (v : Nat)
    (sid : Nat) :
    (calc_view_occlusion_factor env st v sid).1 =
      if sid ≠ env.current_stroke_id then
        decide ((if env.vertex_occluded v then (2 : Int) else 1) = 2)
      else decide (st.occlusion v = 2) := by
  unfold calc_view_occlusion_factor
  split_ifs <;> rfl

/-- The value of the conditional cavity factor as a function of the
queried vertex's stamp and cached cavity value. -/
def cavity_value (env : FactorEnv) (v : Nat) (stamp : Nat) (cav : ℚ) : ℚ :=
  if testFlag env.settings.flags BRUSH_AUTOMASKING_CAVITY_ALL then
    cavity_postprocess env
      (if stamp ≠ env.current_stroke_id then
        calc_cavity_factor_value env.settings (env.cavity_raw v)
      else cav)
  else 1

theorem cavity_pair_fst_eq (env : FactorEnv) (st : FactorState) (v : Nat) :
    (cavity_pair env st v).1 = cavity_value env v (st.stroke_id_stamp v) (st.cavity v) := by
  unfold cavity_pair calc_cavity_factor_query cavity_value
  simp only []
  by_cases h1 : testFlag env.settings.flags BRUSH_AUTOMASKING_CAVITY_ALL
  · rw [if_pos h1, if_pos h1]
    by_cases h2 : st.stroke_id_stamp v ≠ env.current_stroke_id
    · rw [if_pos h2, if_pos h2, calc_blurred_cavity_cavity_self]
    · rw [if_neg h2, if_neg h2]
  · rw [if_neg h1, if_neg h1]

theorem cavity_pair_snd (env : FactorEnv) (st : FactorState) (v : Nat) :
    (cavity_pair env st v).2 =
      if testFlag env.settings.flags BRUSH_AUTOMASKING_CAVITY_ALL ∧
          st.stroke_id_stamp v ≠ env.current_stroke_id then
        calc_blurred_cavity env st v
      else st := by
  unfold cavity_pair calc_cavity_factor_query
  simp only []
  by_cases h1 : testFlag env.settings.flags BRUSH_AUTOMASKING_CAVITY_ALL
  · rw [if_pos h1]
    by_cases h2 : st.stroke_id_stamp v ≠ env.current_stroke_id
    · rw [if_pos h2, if_pos (And.intro h1 h2)]
    · rw [if_neg h2, if_neg (fun hc => h2 hc.2)]
  · rw [if_neg h1, if_neg (fun hc => h1 hc.1)]

/-- The occlusion-test outcome as a function of the queried vertex's
stamp and cached occlusion char. -/
def occl_result (env : FactorEnv) (v : Nat) (stamp : Nat) (occ : Int) : Bool :=
  if env.settings.flags &&&
      (BRUSH_AUTOMASKING_VIEW_OCCLUSION ||| BRUSH_AUTOMASKING_VIEW_NORMAL) =
      (BRUSH_AUTOMASKING_VIEW_OCCLUSION ||| BRUSH_AUTOMASKING_VIEW_NORMAL) then
    if (if env.has_stroke_id_attr then stamp else 255) ≠ env.current_stroke_id then
      decide ((if env.vertex_occluded v then (2 : Int) else 1) = 2)
    else decide (occ = 2)
  else false

theorem occlusion_pair_fst_eq (env : FactorEnv) (st : FactorState) (v : Nat) :
    (occlusion_pair env st v).1 =
      occl_result env v (st.stroke_id_stamp v) (st.occlusion v) := by
  unfold occlusion_pair occl_result
  simp only []
  by_cases h1 : env.settings.flags &&&
      (BRUSH_AUTOMASKING_VIEW_OCCLUSION ||| BRUSH_AUTOMASKING_VIEW_NORMAL) =
      (BRUSH_AUTOMASKING_VIEW_OCCLUSION ||| BRUSH_AUTOMASKING_VIEW_NORMAL)
  · rw [if_pos h1, if_pos h1, calc_view_occlusion_factor_fst]
  · rw [if_neg h1, if_neg h1]

theorem occlusion_pair_snd (env : FactorEnv) (st : FactorState) (v : Nat) :
    (occlusion_pair env st v).2 =
      if (env.settings.flags &&&
            (BRUSH_AUTOMASKING_VIEW_OCCLUSION ||| BRUSH_AUTOMASKING_VIEW_NORMAL) =
            (BRUSH_AUTOMASKING_VIEW_OCCLUSION ||| BRUSH_AUTOMASKING_VIEW_NORMAL)) ∧
          (if env.has_stroke_id_attr then st.stroke_id_stamp v else 255) ≠
            env.current_stroke_id then
        { st with occlusion := updInt st.occlusion v (if env.vertex_occluded v then 2 else 1) }
      else st := by
  unfold occlusion_pair
  simp only []
  by_cases h1 : env.settings.flags &&&
      (BRUSH_AUTOMASKING_VIEW_OCCLUSION ||| BRUSH_AUTOMASKING_VIEW_NORMAL) =
      (BRUSH_AUTOMASKING_VIEW_OCCLUSION ||| BRUSH_AUTOMASKING_VIEW_NORMAL)
  · rw [if_pos h1, calc_view_occlusion_factor_snd]
    by_cases h2 : (if env.has_stroke_id_attr then st.stroke_id_stamp v else 255) ≠
        env.current_stroke_id
    · rw [if_pos h2, if_pos (And.intro h1 h2)]
    · rw [if_neg h2, if_neg (fun hc => h2 hc.2)]
  · rw [if_neg h1, if_neg (fun hc => h1 hc.1)]

/-- `factor_get`'s returned value as a pure function of the queried
vertex's stamp, cached cavity value and cached occlusion char. -/
def factor_value (env : FactorEnv) (v : Nat) (orig : Option Vec3)
    (stamp : Nat) (cav : ℚ) (occ : Int) : ℚ :=
  let flags := env.settings.flags
  let mask := brush_mask env v orig
  if env.has_factor_attr then
    env.factor_attr v * cavity_value env v stamp cav * mask
  else if occl_result env v stamp occ then 0
  else if !env.settings.topology_use_brush_limit &&
      testFlag flags BRUSH_AUTOMASKING_TOPOLOGY &&
      env.island_id v ≠ env.settings.initial_island_nr then 0
  else if testFlag flags BRUSH_AUTOMASKING_FACE_SETS &&
      !env.vert_has_face_set v env.settings.initial_face_set then 0
  else if testFlag flags BRUSH_AUTOMASKING_BOUNDARY_EDGES &&
      env.vert_is_boundary v then 0
  else if testFlag flags BRUSH_AUTOMASKING_BOUNDARY_FACE_SETS &&
      !env.fs_boundary_ignore v && !env.vert_has_unique_face_set v then 0
  else view_mask_mul env v orig mask * cavity_value env v stamp cav

theorem occlusion_pair_stamp (env : FactorEnv) (st : FactorState) (v : Nat) :
    ((occlusion_pair env st v).2).stroke_id_stamp = st.stroke_id_stamp := by
  rw [occlusion_pair_snd]
  split_ifs <;> rfl

theorem occlusion_pair_cavity_fn (env : FactorEnv) (st : FactorState) (v : Nat) :
    ((occlusion_pair env st v).2).cavity = st.cavity := by
  rw [occlusion_pair_snd]
  split_ifs <;> rfl

theorem factor_get_fst_eq (env : FactorEnv) (st : FactorState) (v : Nat)
    (orig : Option Vec3) :
    (factor_get env st v orig).1 =
      factor_value env v orig (st.stroke_id_stamp v) (st.cavity v) (st.occlusion v) := by
  unfold factor_get factor_value
  simp only [automasking_factor_end_fst, cavity_pair_fst_eq, occlusion_pair_fst_eq,
    occlusion_pair_stamp, occlusion_pair_cavity_fn]
  split_ifs <;> simp [automasking_factor_end_fst]

/-- Sameness of the three per-vertex state fields at one index. -/
def AgreeAt (st st2 : FactorState) (u : Nat) : Prop :=
  st2.stroke_id_stamp u = st.stroke_id_stamp u ∧
  st2.cavity u = st.cavity u ∧
  st2.occlusion u = st.occlusion u

theorem AgreeAt.trans {st st2 st3 : FactorState} {u : Nat}
    (h1 : AgreeAt st st2 u) (h2 : AgreeAt st2 st3 u) : AgreeAt st st3 u :=
  ⟨h2.1.trans h1.1, h2.2.1.trans h1.2.1, h2.2.2.trans h1.2.2⟩

theorem factor_end_frame (env : FactorEnv) (st : FactorState) (v : Nat) (x : ℚ)
    (u : Nat) (hu : u ≠ v) : AgreeAt st (automasking_factor_end env st v x).2 u := by
  rw [show (automasking_factor_end env st v x).2 =
    (if env.has_stroke_id_attr then
      { st with stroke_id_stamp := updNat st.stroke_id_stamp v env.current_stroke_id }
    else st) from automasking_factor_end_snd env st v x]
  split_ifs
  · exact ⟨updNat_other _ _ _ _ hu, rfl, rfl⟩
  · exact ⟨rfl, rfl, rfl⟩

theorem cavity_pair_frame (env : FactorEnv) (st : FactorState) (v : Nat)
    (u : Nat) (hu : u ≠ v) : AgreeAt st (cavity_pair env st v).2 u := by
  rw [cavity_pair_snd]
  split_ifs
  · exact ⟨rfl, updQ_other _ _ _ _ hu, rfl⟩
  · exact ⟨rfl, rfl, rfl⟩

theorem occlusion_pair_frame (env : FactorEnv) (st : FactorState) (v : Nat)
    (u : Nat) (hu : u ≠ v) : AgreeAt st (occlusion_pair env st v).2 u := by
  rw [occlusion_pair_snd]
  split_ifs <;>
    first
      | exact ⟨rfl, rfl, rfl⟩
      | exact ⟨rfl, rfl, updInt_other _ _ _ _ hu⟩

theorem factor_get_snd_frame (env : FactorEnv) (st : FactorState) (v : Nat)
    (orig : Option Vec3) (u : Nat) (hu : u ≠ v) :
    AgreeAt st (factor_get env st v orig).2 u := by
  unfold factor_get
  simp only []
  split_ifs
  · exact AgreeAt.trans (cavity_pair_frame env st v u hu)
      (factor_end_frame env _ v _ u hu)
  · exact AgreeAt.trans (occlusion_pair_frame env st v u hu)
      (factor_end_frame env _ v _ u hu)
  · exact occlusion_pair_frame env st v u hu
  · exact occlusion_pair_frame env st v u hu
  · exact occlusion_pair_frame env st v u hu
  · exact occlusion_pair_frame env st v u hu
  · exact AgreeAt.trans
      (AgreeAt.trans (occlusion_pair_frame env st v u hu)
        (cavity_pair_frame env _ v u hu))
      (factor_end_frame env _ v _ u hu)

theorem cavity_value_requery (env : FactorEnv) (v stamp : Nat) (cav : ℚ) :
    cavity_value env v (if env.has_stroke_id_attr then env.current_stroke_id else stamp)
      (if testFlag env.settings.flags BRUSH_AUTOMASKING_CAVITY_ALL ∧
          stamp ≠ env.current_stroke_id then
        calc_cavity_factor_value env.settings (env.cavity_raw v)
      else cav) = cavity_value env v stamp cav := by
  by_cases hflag : testFlag env.settings.flags BRUSH_AUTOMASKING_CAVITY_ALL
  · by_cases hattr : env.has_stroke_id_attr
    · by_cases hst : stamp = env.current_stroke_id
      · simp [cavity_value, hflag, hattr, hst]
      · simp [cavity_value, hflag, hattr, hst]
    · by_cases hst : stamp = env.current_stroke_id
      · simp [cavity_value, hflag, hattr, hst]
      · simp [cavity_value, hflag, hattr, hst]
  · simp [cavity_value, hflag]

theorem occl_result_requery (env : FactorEnv) (v stamp : Nat) (occ : Int) :
    occl_result env v (if env.has_stroke_id_attr then env.current_stroke_id else stamp)
      (if (env.settings.flags &&&
            (BRUSH_AUTOMASKING_VIEW_OCCLUSION ||| BRUSH_AUTOMASKING_VIEW_NORMAL) =
            (BRUSH_AUTOMASKING_VIEW_OCCLUSION ||| BRUSH_AUTOMASKING_VIEW_NORMAL)) ∧
          (if env.has_stroke_id_attr then stamp else 255) ≠ env.current_stroke_id then
        (if env.vertex_occluded v then 2 else 1)
      else occ) = occl_result env v stamp occ := by
  by_cases hdo : env.settings.flags &&&
      (BRUSH_AUTOMASKING_VIEW_OCCLUSION ||| BRUSH_AUTOMASKING_VIEW_NORMAL) =
      (BRUSH_AUTOMASKING_VIEW_OCCLUSION ||| BRUSH_AUTOMASKING_VIEW_NORMAL)
  · by_cases hattr : env.has_stroke_id_attr
    · by_cases hst : stamp = env.current_stroke_id
      · simp [occl_result, hdo, hattr, hst]
      · simp [occl_result, hdo, hattr, hst]
    · by_cases h255 : (255 : Nat) = env.current_stroke_id
      · simp [occl_result, hdo, hattr, h255]
      · simp [occl_result, hdo, hattr, h255]
  · simp [occl_result, hdo]

theorem occl_result_nostamp (env : FactorEnv) (v stamp : Nat) (occ : Int) :
    occl_result env v stamp
      (if (env.settings.flags &&&
            (BRUSH_AUTOMASKING_VIEW_OCCLUSION ||| BRUSH_AUTOMASKING_VIEW_NORMAL) =
            (BRUSH_AUTOMASKING_VIEW_OCCLUSION ||| BRUSH_AUTOMASKING_VIEW_NORMAL)) ∧
          (if env.has_stroke_id_attr then stamp else 255) ≠ env.current_stroke_id then
        (if env.vertex_occluded v then 2 else 1)
      else occ) = occl_result env v stamp occ := by
  by_cases hdo : env.settings.flags &&&
      (BRUSH_AUTOMASKING_VIEW_OCCLUSION ||| BRUSH_AUTOMASKING_VIEW_NORMAL) =
      (BRUSH_AUTOMASKING_VIEW_OCCLUSION ||| BRUSH_AUTOMASKING_VIEW_NORMAL)
  · by_cases hattr : env.has_stroke_id_attr
    · by_cases hst : stamp = env.current_stroke_id
      · simp [occl_result, hdo, hattr, hst]
      · simp [occl_result, hdo, hattr, hst]
    · by_cases h255 : (255 : Nat) = env.current_stroke_id
      · simp [occl_result, hdo, hattr, h255]
      · simp [occl_result, hdo, hattr, h255]
  · simp [occl_result, hdo]

theorem factor_end_at_v (env : FactorEnv) (st : FactorState) (v : Nat) (x : ℚ) :
    (automasking_factor_end env st v x).2.stroke_id_stamp v =
      (if env.has_stroke_id_attr then env.current_stroke_id else st.stroke_id_stamp v) ∧
    (automasking_factor_end env st v x).2.cavity v = st.cavity v ∧
    (automasking_factor_end env st v x).2.occlusion v = st.occlusion v := by
  rw [automasking_factor_end_snd]
  split_ifs <;> simp [updNat_same]

theorem cavity_pair_at_v (env : FactorEnv) (st : FactorState) (v : Nat) :
    (cavity_pair env st v).2.stroke_id_stamp v = st.stroke_id_stamp v ∧
    (cavity_pair env st v).2.cavity v =
      (if testFlag env.settings.flags BRUSH_AUTOMASKING_CAVITY_ALL ∧
          st.stroke_id_stamp v ≠ env.current_stroke_id then
        calc_cavity_factor_value env.settings (env.cavity_raw v)
      else st.cavity v) ∧
    (cavity_pair env st v).2.occlusion v = st.occlusion v := by
  rw [cavity_pair_snd]
  split_ifs <;> simp [calc_blurred_cavity, updQ_same]

theorem occlusion_pair_at_v (env : FactorEnv) (st : FactorState) (v : Nat) :
    (occlusion_pair env st v).2.stroke_id_stamp v = st.stroke_id_stamp v ∧
    (occlusion_pair env st v).2.cavity v = st.cavity v ∧
    (occlusion_pair env st v).2.occlusion v =
      (if (env.settings.flags &&&
            (BRUSH_AUTOMASKING_VIEW_OCCLUSION ||| BRUSH_AUTOMASKING_VIEW_NORMAL) =
            (BRUSH_AUTOMASKING_VIEW_OCCLUSION ||| BRUSH_AUTOMASKING_VIEW_NORMAL)) ∧
          (if env.has_stroke_id_attr then st.stroke_id_stamp v else 255) ≠
            env.current_stroke_id then
        (if env.vertex_occluded v then 2 else 1)
      else st.occlusion v) := by
  rw [occlusion_pair_snd]
  split_ifs <;> simp [updInt_same]

/-- Requerying a vertex returns the same value: the writes `factor_get`
performs at the queried vertex (restamping, caching the cavity value,
caching the occlusion char) never change the value a second query at
that vertex computes, whatever the original-normal arguments of the two
queries. -/
theorem factor_value_requery (env : FactorEnv) (st : FactorState) (v : Nat)
    (orig orig2 : Option Vec3) :
    factor_value env v orig2
        ((factor_get env st v orig).2.stroke_id_stamp v)
        ((factor_get env st v orig).2.cavity v)
        ((factor_get env st v orig).2.occlusion v) =
      factor_value env v orig2 (st.stroke_id_stamp v) (st.cavity v) (st.occlusion v) := by
  unfold factor_get
  simp only []
  split_ifs with hfa hocc h1 h2 h3 h4
  · -- cached-buffer branch: restamp and cavity write
    obtain ⟨e1, e2, e3⟩ := factor_end_at_v env (cavity_pair env st v).2 v
      (env.factor_attr v * (cavity_pair env st v).1 * brush_mask env v orig)
    obtain ⟨c1, c2, c3⟩ := cavity_pair_at_v env st v
    rw [e1, e2, e3, c1, c2, c3]
    unfold factor_value
    rw [if_pos hfa, if_pos hfa, cavity_value_requery]
  · -- occluded early return: restamp and occlusion write
    rw [occlusion_pair_fst_eq] at hocc
    obtain ⟨e1, e2, e3⟩ := factor_end_at_v env (occlusion_pair env st v).2 v 0
    obtain ⟨o1, o2, o3⟩ := occlusion_pair_at_v env st v
    rw [e1, e2, e3, o1, o2, o3]
    unfold factor_value
    rw [if_neg hfa, if_neg hfa, occl_result_requery, if_pos hocc, if_pos hocc]
  · -- island reject: occlusion write only
    obtain ⟨o1, o2, o3⟩ := occlusion_pair_at_v env st v
    rw [o1, o2, o3]
    unfold factor_value
    rw [occl_result_nostamp]
  · -- face-set reject
    obtain ⟨o1, o2, o3⟩ := occlusion_pair_at_v env st v
    rw [o1, o2, o3]
    unfold factor_value
    rw [occl_result_nostamp]
  · -- boundary-edges reject
    obtain ⟨o1, o2, o3⟩ := occlusion_pair_at_v env st v
    rw [o1, o2, o3]
    unfold factor_value
    rw [occl_result_nostamp]
  · -- boundary-face-sets reject
    obtain ⟨o1, o2, o3⟩ := occlusion_pair_at_v env st v
    rw [o1, o2, o3]
    unfold factor_value
    rw [occl_result_nostamp]
  · -- live tail: restamp, occlusion write and cavity write
    obtain ⟨e1, e2, e3⟩ := factor_end_at_v env
      (cavity_pair env (occlusion_pair env st v).2 v).2 v
      (view_mask_mul env v orig (brush_mask env v orig) *
        (cavity_pair env (occlusion_pair env st v).2 v).1)
    obtain ⟨c1, c2, c3⟩ := cavity_pair_at_v env (occlusion_pair env st v).2 v
    obtain ⟨o1, o2, o3⟩ := occlusion_pair_at_v env st v
    rw [e1, e2, e3, c1, c2, c3, o1, o2, o3]
    unfold factor_value
    simp only [occl_result_requery, cavity_value_requery]

theorem factor_get_stable (env : FactorEnv) (st : FactorState) (v : Nat)
    (orig : Option Vec3) (u : Nat) (orig2 : Option Vec3) :
    (factor_get env ((factor_get env st v orig).2) u orig2).1 =
      (factor_get env st u orig2).1 := by
  rw [factor_get_fst_eq, factor_get_fst_eq]
  by_cases hu : u = v
  · subst hu
    exact factor_value_requery env st u orig orig2
  · obtain ⟨h1, h2, h3⟩ := factor_get_snd_frame env st v orig u hu
    rw [h1, h2, h3]

/-- Two states every factor query values identically. -/
def SameValues (env : FactorEnv) (st st2 : FactorState) : Prop :=
  ∀ u orig2, (factor_get env st2 u orig2).1 = (factor_get env st u orig2).1

theorem sameValues_post (env : FactorEnv) (st : FactorState) (v : Nat)
    (orig : Option Vec3) : SameValues env st (factor_get env st v orig).2 :=
  fun u orig2 => factor_get_stable env st v orig u orig2

theorem sameValues_trans {env : FactorEnv} {st st2 st3 : FactorState}
    (h1 : SameValues env st st2) (h2 : SameValues env st2 st3) :
    SameValues env st st3 :=
  fun u o => (h2 u o).trans (h1 u o)

/-- The corner loop of `calc_face_factors`
(sculpt_automasking.cc:652-657): query each corner vertex with no
original-normal argument, threading the per-vertex attribute state, and
accumulate the sum of the factors. -/
def face_factor_sum (env : FactorEnv) : FactorState → ℚ → List Nat → ℚ × FactorState
  | st, sum, [] => (sum, st)
  | st, sum, v :: rest =>
    let r := factor_get env st v none
    face_factor_sum env r.2 (sum + r.1) rest

/-- `calc_face_factors` (sculpt_automasking.cc:643) for one face of the
batch: the face's factor is multiplied by the corner sum times the
reciprocal of the corner count (`sum * math::rcp(float(size))`). -/
def calc_face_factors (env : FactorEnv) (st : FactorState) (face_verts : List Nat)
    (factor0 : ℚ) : ℚ × FactorState :=
  let s := face_factor_sum env st 0 face_verts
  (factor0 * (s.1 * (face_verts.length : ℚ)⁻¹), s.2)

theorem face_factor_sum_eq (env : FactorEnv) (st : FactorState) (l : List Nat) :
    ∀ (stc : FactorState) (sum : ℚ), SameValues env st stc →
      (face_factor_sum env stc sum l).1 =
        sum + (l.map (fun v => (factor_get env st v none).1)).sum := by
  induction l with
  | nil => intro stc sum _; simp [face_factor_sum]
  | cons v rest ih =>
    intro stc sum h
    simp only [face_factor_sum, List.map_cons, List.sum_cons]
    rw [ih (factor_get env stc v none).2 (sum + (factor_get env stc v none).1)
      (sameValues_trans h (sameValues_post env stc v none))]
    rw [h v none]
    ring

/-- C10: for every face of the batch face-factor query, the face's
output factor is its input factor multiplied by the arithmetic mean of
the per-vertex factor query over the face's corner vertices, each
corner evaluated with no original-normal argument — the state threading
through the corner queries never changes the queried values, so the
mean is that of independent `factor_get` queries against the state at
the start of the face. -/
theorem calc_face_factors_is_mean (env : FactorEnv) (st : FactorState)
    (face_verts : List Nat) (factor0 : ℚ) :
    (calc_face_factors env st face_verts factor0).1 =
      factor0 * ((face_verts.map (fun v => (factor_get env st v none).1)).sum /
        (face_verts.length : ℚ)) := by
  unfold calc_face_factors
  simp only []
  rw [face_factor_sum_eq env st face_verts st 0 (fun u o => rfl)]
  rw [zero_add, div_eq_mul_inv]

/-! ## The sculpt attribute store (paint.cc)

The session's fixed registry of `SculptAttribute` slots, the CustomData
layer lists of the mesh and bmesh backends, and the update/destroy
operations of paint.cc.  Buffer identities are allocation ids drawn
from a counter; `CustomData` internals live outside the excerpt and are
modelled from the spec (named, typed layers with backing storage and a
byte offset; lookup finds the first layer with a given type and name). -/

inductive PbvhType where
  | Mesh
  | Grids
  | BMesh
deriving DecidableEq, Repr, Inhabited

inductive AttrDomain where
  | Point
  | Face
  | Other
deriving DecidableEq, Repr, Inhabited

structure SculptAttributeParams where
  permanent : Bool
  stroke_only : Bool
  simple_array : Bool
deriving DecidableEq, Repr, Inhabited

/-- One CustomData layer: type, name (as a numeric code), backing
storage identity and byte offset. -/
structure CDLayer where
  proptype : Nat
  lname : Nat
  data : Nat
  offset : Int
deriving DecidableEq, Repr, Inhabited

structure SculptAttribute where
  used : Bool
  domain : AttrDomain
  proptype : Nat
  aname : Nat
  simple_array : Bool
  params : SculptAttributeParams
  data : Option Nat
  data_for_bmesh : Bool
  elem_num : Nat
  bmesh_cd_offset : Int
  elem_size : Nat
deriving DecidableEq, Repr, Inhabited

def CD_PROP_FLOAT : Nat := 10

def CD_PROP_INT8 : Nat := 45

/-- Modelled from the spec: per-type element sizes (`CustomData_sizeof`,
outside the excerpt); only the values of the types used matter. -/
def CustomData_sizeof (t : Nat) : Nat := if t = CD_PROP_INT8 then 1 else 4

/-- The backend state the attribute store reads and mutates. -/
structure PaintCore where
  alloc_ctr : Nat
  bm : Bool
  has_pbvh : Bool
  pbvh_type : PbvhType
  vertex_count : Nat
  totfaces : Nat
  mesh_vdata : List CDLayer
  mesh_fdata : List CDLayer
  bm_vdata : List CDLayer
  bm_pdata : List CDLayer
deriving DecidableEq, Repr, Inhabited

inductive CDataKey where
  | MeshV
  | MeshF
  | BmV
  | BmP
deriving DecidableEq, Repr, Inhabited

def getCData (c : PaintCore) : CDataKey → List CDLayer
  | CDataKey.MeshV => c.mesh_vdata
  | CDataKey.MeshF => c.mesh_fdata
  | CDataKey.BmV => c.bm_vdata
  | CDataKey.BmP => c.bm_pdata

def setCData (c : PaintCore) (k : CDataKey) (l : List CDLayer) : PaintCore :=
  match k with
  | CDataKey.MeshV => { c with mesh_vdata := l }
  | CDataKey.MeshF => { c with mesh_fdata := l }
  | CDataKey.BmV => { c with bm_vdata := l }
  | CDataKey.BmP => { c with bm_pdata := l }

/-- `sculpt_get_cdata` (paint.cc:2506): which CustomData a domain maps
to; none for the unreachable domain, and none for the point domain of a
grids session (paint.cc:2527). -/
def sculpt_get_cdata (c : PaintCore) : AttrDomain → Option CDataKey
  | AttrDomain.Point =>
    if c.bm then some CDataKey.BmV
    else if c.has_pbvh ∧ c.pbvh_type = PbvhType.Grids then none
    else some CDataKey.MeshV
  | AttrDomain.Face => if c.bm then some CDataKey.BmP else some CDataKey.MeshF
  | AttrDomain.Other => none

/-- `sculpt_attr_elem_count_get` (paint.cc:2541): the point domain uses
`BKE_sculptsession_vertex_count`, the face domain `ss->totfaces`. -/
def sculpt_attr_elem_count_get (c : PaintCore) : AttrDomain → Nat
  | AttrDomain.Point => c.vertex_count
  | AttrDomain.Face => c.totfaces
  | AttrDomain.Other => 0

/-- Modelled from the spec: `CustomData_get_named_layer_index`
(customdata.cc, outside the excerpt) — index of the first layer with
the given type and name, none when absent. -/
def layerIndexOf : List CDLayer → Nat → Nat → Option Nat
  | [], _, _ => none
  | l :: rest, pt, n =>
    if l.proptype = pt ∧ l.lname = n then some 0
    else (layerIndexOf rest pt n).map (· + 1)

/-- The C index form of the lookup: -1 when absent. -/
def CustomData_get_named_layer_index (layers : List CDLayer) (pt n : Nat) : Int :=
  match layerIndexOf layers pt n with
  | some i => (i : Int)
  | none => -1

def layerAt (layers : List CDLayer) (i : Nat) : CDLayer := layers.getD i default

/-- Modelled from the spec: adding a named layer
(`CustomData_add_layer_named` / `BM_data_layer_add_named`, outside the
excerpt): append a layer backed by fresh storage, its byte offset the
sum of the existing layers' sizes; existing layer records are
unchanged. -/
def addLayer (c : PaintCore) (k : CDataKey) (pt n : Nat) : PaintCore :=
  let layers := getCData c k
  let off : Int := (layers.map (fun l => (CustomData_sizeof l.proptype : Int))).sum
  setCData { c with alloc_ctr := c.alloc_ctr + 1 } k
    (layers ++ [{ proptype := pt, lname := n, data := c.alloc_ctr, offset := off }])

/-- The simple-array branch of `sculpt_attribute_create`
(paint.cc:2602-2614): allocate fresh storage (a fresh id from the
allocation counter) and record the session kind and current element
count on the attribute. -/
def createSimple (c : PaintCore) (out : SculptAttribute) (pt : Nat) (totelem : Nat) :
    PaintCore × SculptAttribute × Bool :=
  ({ c with alloc_ctr := c.alloc_ctr + 1 },
   { out with
      data := some c.alloc_ctr
      data_for_bmesh := c.bm
      simple_array := true
      bmesh_cd_offset := -1
      elem_size := CustomData_sizeof pt
      used := true
      elem_num := totelem },
   true)

/-- The layer-backed branch of `sculpt_attribute_create`
(paint.cc:2616-2668): add a named layer to the CustomData `k`, then
record the first matching layer's byte offset (bmesh, `forBm`) or its
storage (regular mesh). -/
def createNamedLayer (c : PaintCore) (k : CDataKey) (pt n : Nat) (out : SculptAttribute)
    (forBm : Bool) (totelem : Nat) : PaintCore × SculptAttribute × Bool :=
  (addLayer c k pt n,
   { out with
      data := if forBm then none
        else some (layerAt (getCData (addLayer c k pt n) k)
          ((layerIndexOf (getCData (addLayer c k pt n) k) pt n).getD 0)).data
      data_for_bmesh := forBm
      bmesh_cd_offset := if forBm then
          (layerAt (getCData (addLayer c k pt n) k)
            ((layerIndexOf (getCData (addLayer c k pt n) k) pt n).getD 0)).offset
        else -1
      elem_size := CustomData_sizeof pt
      used := true
      elem_num := totelem },
   true)

/-- `sculpt_attribute_create` (paint.cc:2558), acting on the attribute
record `out`.  Simple-array mode is forced for grids sessions and for
bmesh sessions with `flat_array_for_bmesh` (and permanence dropped);
simple arrays allocate fresh storage; otherwise a named layer is added
to the backend CustomData and the attribute records the first matching
layer's storage or offset.  The returned flag is false when the domain
has no CustomData (the unreachable-domain failure path, which clears
`used`).  The session's pbvh type is used for the force check, as the
callers pass `ss->pbvh->type()`. -/
def sculpt_attribute_create (c : PaintCore) (domain : AttrDomain) (pt n : Nat)
    (out : SculptAttribute) (params : SculptAttributeParams)
    (flat_array_for_bmesh : Bool) : PaintCore × SculptAttribute × Bool :=
  let force := c.pbvh_type = PbvhType.Grids ∨
    (c.pbvh_type = PbvhType.BMesh ∧ flat_array_for_bmesh)
  let params2 := if force ∧ params.permanent then { params with permanent := false } else params
  let simple_array := if force then true else params2.simple_array
  let out := { out with params := params2, proptype := pt, domain := domain, aname := n }
  let totelem := sculpt_attr_elem_count_get c domain
  if simple_array then
    createSimple c out pt totelem
  else
    let out := { out with simple_array := false }
    if c.bm then
      match domain with
      | AttrDomain.Point | AttrDomain.Face =>
        createNamedLayer c (if domain = AttrDomain.Point then CDataKey.BmV else CDataKey.BmP)
          pt n out true totelem
      | AttrDomain.Other => (c, { out with used := false }, false)
    else
      match domain with
      | AttrDomain.Point | AttrDomain.Face =>
        createNamedLayer c (if domain = AttrDomain.Point then CDataKey.MeshV else CDataKey.MeshF)
          pt n out false totelem
      | AttrDomain.Other => (c, { out with used := false }, false)

/-- The staleness test of `sculpt_attr_update` (paint.cc:2690-2707): a
non-null buffer with a stale element count, a coerced simple array on a
regular-mesh session, or (for layer-backed attributes with a live
CustomData) a missing layer or a bmesh-ness mismatch. -/
def computeBad (c : PaintCore) (a : SculptAttribute) : Bool :=
  let elem_num := sculpt_attr_elem_count_get c a.domain
  let b1 := match a.data with
    | some _ => decide (a.elem_num ≠ elem_num)
    | none => false
  let b2 := a.simple_array && !a.params.simple_array &&
    !(decide (c.pbvh_type = PbvhType.Grids) || decide (c.pbvh_type = PbvhType.BMesh))
  let b3 := match sculpt_get_cdata c a.domain with
    | some k =>
      if a.simple_array then false
      else
        decide (layerIndexOf (getCData c k) a.proptype a.aname = none) ||
        decide (c.bm ≠ a.data_for_bmesh)
    | none => false
  b1 || b2 || b3

/-- The refresh assignments of `sculpt_attr_update` (paint.cc:2709-2716):
re-point the attribute at the current layer's offset (bmesh) or storage
(mesh). -/
def refreshAttr (c : PaintCore) (a : SculptAttribute) : SculptAttribute :=
  match sculpt_get_cdata c a.domain with
  | some k =>
    if a.simple_array then a
    else
      match layerIndexOf (getCData c k) a.proptype a.aname with
      | some i =>
        let L := layerAt (getCData c k) i
        if a.data_for_bmesh then { a with bmesh_cd_offset := L.offset }
        else { a with data := some L.data }
      | none => a
  | none => a

/-- `sculpt_attr_update` (paint.cc:2685): refresh the attribute against
the backend when it is still valid, otherwise free a simple array's
storage and recreate the attribute in place (passing the attribute's
own parameters and its `data_for_bmesh` as `flat_array_for_bmesh`). -/
def sculpt_attr_update (c : PaintCore) (a : SculptAttribute) :
    PaintCore × SculptAttribute :=
  if computeBad c a then
    let a2 := if a.simple_array then { a with data := none } else a
    let r := sculpt_attribute_create c a.domain a.proptype a.aname a2 a.params
      a.data_for_bmesh
    (r.1, r.2.1)
  else (c, refreshAttr c a)

/-- One pass of `sculpt_attribute_update_refs`' inner loop
(paint.cc:2904-2910): update every used slot in order, threading the
backend state. -/
def updateAttrs : PaintCore → List SculptAttribute → PaintCore × List SculptAttribute
  | c, [] => (c, [])
  | c, a :: rest =>
    let r := if a.used then sculpt_attr_update c a else (c, a)
    let rr := updateAttrs r.1 rest
    (rr.1, r.2 :: rr.2)

/-- A sculpt session as the attribute store sees it: the backend state,
the fixed slot registry, the convenience pointer table `ss->attrs`
(pointers modelled as slot indices), two poison flags recording a
failed `BLI_assert(attr->used)` and an out-of-range
`CustomData_free_layer` index, and a ledger of freed storage ids. -/
structure PaintSession where
  core : PaintCore
  temp_attributes : List SculptAttribute
  attrs_ptrs : List (Option Nat)
  bli_assert_failed : Bool
  invalid_layer_free : Bool
  freed : List Nat
deriving DecidableEq, Repr, Inhabited

/-- `sculpt_attribute_update_refs` (paint.cc:2898): run the update loop
twice, in case a recreation invalidated references refreshed earlier in
the same pass. -/
def sculpt_attribute_update_refs (s : PaintSession) : PaintSession :=
  let p1 := updateAttrs s.core s.temp_attributes
  let p2 := updateAttrs p1.1 p1.2
  { s with core := p2.1, temp_attributes := p2.2 }

/-! ### Update passes only extend the backend state -/

def prefixExt (l1 l2 : List CDLayer) : Prop := ∃ t, l2 = l1 ++ t

theorem prefixExt_refl (l : List CDLayer) : prefixExt l l := ⟨[], by simp⟩

theorem prefixExt_trans {l1 l2 l3 : List CDLayer}
    (h1 : prefixExt l1 l2) (h2 : prefixExt l2 l3) : prefixExt l1 l3 := by
  obtain ⟨t1, rfl⟩ := h1
  obtain ⟨t2, rfl⟩ := h2
  exact ⟨t1 ++ t2, by simp⟩

/-- The backend after an update pass: the scalar session facts are
unchanged and every CustomData keeps its existing layer records,
possibly gaining appended ones. -/
def CoreExtends (c c2 : PaintCore) : Prop :=
  c2.bm = c.bm ∧ c2.has_pbvh = c.has_pbvh ∧ c2.pbvh_type = c.pbvh_type ∧
  c2.vertex_count = c.vertex_count ∧ c2.totfaces = c.totfaces ∧
  ∀ k, prefixExt (getCData c k) (getCData c2 k)

theorem CoreExtends_refl (c : PaintCore) : CoreExtends c c :=
  ⟨rfl, rfl, rfl, rfl, rfl, fun k => prefixExt_refl _⟩

theorem CoreExtends_trans {c1 c2 c3 : PaintCore}
    (h1 : CoreExtends c1 c2) (h2 : CoreExtends c2 c3) : CoreExtends c1 c3 :=
  ⟨h2.1.trans h1.1, h2.2.1.trans h1.2.1, h2.2.2.1.trans h1.2.2.1,
   h2.2.2.2.1.trans h1.2.2.2.1, h2.2.2.2.2.1.trans h1.2.2.2.2.1,
   fun k => prefixExt_trans (h1.2.2.2.2.2 k) (h2.2.2.2.2.2 k)⟩

theorem sculpt_get_cdata_ext {c c2 : PaintCore} (h : CoreExtends c c2)
    (d : AttrDomain) : sculpt_get_cdata c2 d = sculpt_get_cdata c d := by
  obtain ⟨hbm, hpb, hpt, _, _, _⟩ := h
  cases d <;> simp [sculpt_get_cdata, hbm, hpb, hpt]

theorem sculpt_attr_elem_count_ext {c c2 : PaintCore} (h : CoreExtends c c2)
    (d : AttrDomain) : sculpt_attr_elem_count_get c2 d = sculpt_attr_elem_count_get c d := by
  obtain ⟨_, _, _, hv, hf, _⟩ := h
  cases d <;> simp [sculpt_attr_elem_count_get, hv, hf]

theorem layerIndexOf_cons (x : CDLayer) (rest : List CDLayer) (pt n : Nat) :
    layerIndexOf (x :: rest) pt n =
      if x.proptype = pt ∧ x.lname = n then some 0
      else (layerIndexOf rest pt n).map (· + 1) := rfl

theorem layerIndexOf_append {l : List CDLayer} {pt n i : Nat}
    (h : layerIndexOf l pt n = some i) (t : List CDLayer) :
    layerIndexOf (l ++ t) pt n = some i := by
  induction l generalizing i with
  | nil => exact absurd h (by simp [layerIndexOf])
  | cons x rest ih =>
    rw [layerIndexOf_cons] at h
    rw [List.cons_append, layerIndexOf_cons]
    split_ifs at h ⊢ with hx
    · exact h
    · cases hr : layerIndexOf rest pt n with
      | none => rw [hr] at h; simp at h
      | some j =>
        rw [hr] at h
        rw [ih hr]
        simpa using h

theorem layerIndexOf_lt {l : List CDLayer} {pt n i : Nat}
    (h : layerIndexOf l pt n = some i) : i < l.length := by
  induction l generalizing i with
  | nil => exact absurd h (by simp [layerIndexOf])
  | cons x rest ih =>
    rw [layerIndexOf_cons] at h
    split_ifs at h with hx
    · simp only [Option.some_inj] at h
      simp only [List.length_cons]
      omega
    · cases hr : layerIndexOf rest pt n with
      | none => rw [hr] at h; simp at h
      | some j =>
        rw [hr] at h
        simp at h
        have := ih hr
        simp only [List.length_cons]
        omega

theorem getD_append_left {α : Type} (l t : List α) (d : α) (i : Nat)
    (h : i < l.length) : (l ++ t).getD i d = l.getD i d := by
  induction l generalizing i with
  | nil => simp at h
  | cons x rest ih =>
    cases i with
    | zero => rfl
    | succ j =>
      simp only [List.cons_append, List.getD_cons_succ]
      exact ih j (by simpa using h)

theorem layerAt_append {l t : List CDLayer} {pt n i : Nat}
    (h : layerIndexOf l pt n = some i) : layerAt (l ++ t) i = layerAt l i :=
  getD_append_left l t default i (layerIndexOf_lt h)

theorem layerIndexOf_append_one (l : List CDLayer) (pt n : Nat) (x : CDLayer)
    (hx : x.proptype = pt ∧ x.lname = n) :
    ∃ i, layerIndexOf (l ++ [x]) pt n = some i := by
  induction l with
  | nil => exact ⟨0, by simp [layerIndexOf_cons, layerIndexOf, hx.1, hx.2]⟩
  | cons y rest ih =>
    rw [List.cons_append, layerIndexOf_cons]
    split_ifs with hy
    · exact ⟨0, rfl⟩
    · obtain ⟨i, hi⟩ := ih
      exact ⟨i + 1, by rw [hi]; rfl⟩

theorem getCData_ctr (c : PaintCore) (m : Nat) (k : CDataKey) :
    getCData { c with alloc_ctr := m } k = getCData c k := by
  cases k <;> rfl

theorem addLayer_extends (c : PaintCore) (k : CDataKey) (pt n : Nat) :
    CoreExtends c (addLayer c k pt n) := by
  cases k <;>
    exact ⟨rfl, rfl, rfl, rfl, rfl, fun k' => by
      cases k' <;> first | exact ⟨_, rfl⟩ | exact prefixExt_refl _⟩

theorem ctr_extends (c : PaintCore) (m : Nat) :
    CoreExtends c { c with alloc_ctr := m } :=
  ⟨rfl, rfl, rfl, rfl, rfl, fun k => by rw [getCData_ctr]; exact prefixExt_refl _⟩

theorem attr_eta_offset (a : SculptAttribute) (x : Int) (h : a.bmesh_cd_offset = x) :
    ({ a with bmesh_cd_offset := x } : SculptAttribute) = a := by
  subst h; cases a; rfl

theorem attr_eta_data (a : SculptAttribute) (d : Option Nat) (h : a.data = d) :
    ({ a with data := d } : SculptAttribute) = a := by
  subst h; cases a; rfl

/-- A layer lookup that succeeds is unchanged, both in index and in the
located layer record, when the backend only gains appended layers. -/
theorem layer_ext {c c' : PaintCore} (h : CoreExtends c c') (k : CDataKey) {pt n i : Nat}
    (hi : layerIndexOf (getCData c k) pt n = some i) :
    layerIndexOf (getCData c' k) pt n = some i ∧
    layerAt (getCData c' k) i = layerAt (getCData c k) i := by
  obtain ⟨t, ht⟩ := h.2.2.2.2.2 k
  rw [ht]
  exact ⟨layerIndexOf_append hi t, layerAt_append hi⟩

theorem refresh_simple (c : PaintCore) (a : SculptAttribute) (h : a.simple_array = true) :
    refreshAttr c a = a := by
  unfold refreshAttr
  cases sculpt_get_cdata c a.domain <;> simp [h]

theorem refresh_nocdata (c : PaintCore) (a : SculptAttribute)
    (h : sculpt_get_cdata c a.domain = none) : refreshAttr c a = a := by
  unfold refreshAttr; rw [h]

/-- The staleness verdict with its let-bindings inlined. -/
theorem computeBad_eq (c : PaintCore) (a : SculptAttribute) :
    computeBad c a =
      ((match a.data with
        | some _ => decide (a.elem_num ≠ sculpt_attr_elem_count_get c a.domain)
        | none => false) ||
       (a.simple_array && !a.params.simple_array &&
         !(decide (c.pbvh_type = PbvhType.Grids) || decide (c.pbvh_type = PbvhType.BMesh))) ||
       (match sculpt_get_cdata c a.domain with
        | some k =>
          if a.simple_array then false
          else decide (layerIndexOf (getCData c k) a.proptype a.aname = none) ||
            decide (c.bm ≠ a.data_for_bmesh)
        | none => false)) := rfl

/-- The propositional content of a false staleness verdict. -/
theorem computeBad_false_iff (c : PaintCore) (a : SculptAttribute) :
    computeBad c a = false ↔
      (∀ d, a.data = some d → a.elem_num = sculpt_attr_elem_count_get c a.domain) ∧
      (a.simple_array = true → a.params.simple_array = false →
        c.pbvh_type = PbvhType.Grids ∨ c.pbvh_type = PbvhType.BMesh) ∧
      (∀ k, sculpt_get_cdata c a.domain = some k → a.simple_array = false →
        (∃ i, layerIndexOf (getCData c k) a.proptype a.aname = some i) ∧
        c.bm = a.data_for_bmesh) := by
  rw [computeBad_eq]
  constructor
  · intro h
    simp only [Bool.or_eq_false_iff] at h
    refine ⟨?_, ?_, ?_⟩
    · intro d hd
      have h1 := h.1.1
      rw [hd] at h1
      simpa using h1
    · intro hs hp
      have h2 := h.1.2
      rw [hs, hp] at h2
      simp at h2
      by_cases hg : c.pbvh_type = PbvhType.Grids
      · exact Or.inl hg
      · exact Or.inr (h2 hg)
    · intro k hk hsa
      have h3 := h.2
      rw [hk] at h3
      have h4 : (if a.simple_array = true then false
          else decide (layerIndexOf (getCData c k) a.proptype a.aname = none) ||
            decide (c.bm ≠ a.data_for_bmesh)) = false := h3
      rw [if_neg (by simp [hsa])] at h4
      simp only [Bool.or_eq_false_iff, decide_eq_false_iff_not] at h4
      exact ⟨Option.ne_none_iff_exists'.1 h4.1, not_ne_iff.1 h4.2⟩
  · rintro ⟨h1, h2, h3⟩
    simp only [Bool.or_eq_false_iff]
    refine ⟨⟨?_, ?_⟩, ?_⟩
    · cases hd : a.data with
      | none => rfl
      | some d => simp [h1 d hd]
    · by_cases hs : a.simple_array = true
      · by_cases hp : a.params.simple_array = true
        · simp [hp]
        · have hpf : a.params.simple_array = false := by simpa using hp
          rcases h2 hs hpf with hg | hg <;> simp [hg]
      · have hsa : a.simple_array = false := by simpa using hs
        simp [hsa]
    · cases hk : sculpt_get_cdata c a.domain with
      | none => rfl
      | some k =>
        by_cases hs : a.simple_array = true
        · simp [hs]
        · have hsa : a.simple_array = false := by simpa using hs
          obtain ⟨⟨i, hi⟩, hbm⟩ := h3 k hk hsa
          simp [hsa, hi, hbm]

/-- An attribute judged healthy stays healthy when the backend only
gains appended layers: counts, session kind and layer lookups are
stable under the extension. -/
theorem computeBad_ext {c c' : PaintCore} (h : CoreExtends c c') (a : SculptAttribute)
    (hb : computeBad c a = false) : computeBad c' a = false := by
  rw [computeBad_false_iff] at hb ⊢
  obtain ⟨h1, h2, h3⟩ := hb
  refine ⟨?_, ?_, ?_⟩
  · intro d hd
    rw [sculpt_attr_elem_count_ext h]
    exact h1 d hd
  · intro hs hp
    rw [h.2.2.1]
    exact h2 hs hp
  · intro k hk hsa
    rw [sculpt_get_cdata_ext h] at hk
    obtain ⟨⟨i, hi⟩, hbm⟩ := h3 k hk hsa
    exact ⟨⟨i, (layer_ext h k hi).1⟩, by rw [h.1]; exact hbm⟩

/-- The healthy-attribute refresh when the named layer is found. -/
theorem refresh_found (c : PaintCore) (a : SculptAttribute) {k : CDataKey} {i : Nat}
    (hcd : sculpt_get_cdata c a.domain = some k) (hsa : a.simple_array = false)
    (hi : layerIndexOf (getCData c k) a.proptype a.aname = some i) :
    refreshAttr c a =
      (if a.data_for_bmesh then
        { a with bmesh_cd_offset := (layerAt (getCData c k) i).offset }
      else { a with data := some (layerAt (getCData c k) i).data }) := by
  unfold refreshAttr
  rw [hcd]
  simp [hsa, hi]

/-- The one data shape a refresh can make newly stale: a null buffer on
a mesh-layer-backed attribute whose recorded element count is behind
the mesh.  `SafeData` rules that shape out. -/
def SafeData (c : PaintCore) (a : SculptAttribute) : Prop :=
  a.data = none →
    a.simple_array = true ∨ a.data_for_bmesh = true ∨
    sculpt_get_cdata c a.domain = none ∨
    a.elem_num = sculpt_attr_elem_count_get c a.domain

/-- A fixed point of the update step, robust to further appended
layers: the staleness check passes and the refresh assignments change
nothing. -/
def Canonical (c : PaintCore) (a : SculptAttribute) : Prop :=
  ∀ c', CoreExtends c c' → computeBad c' a = false ∧ refreshAttr c' a = a

/-- A slot the update loop will never change again: dead, or a fixed
point. -/
def Settled (c : PaintCore) (a : SculptAttribute) : Prop :=
  a.used = false ∨ Canonical c a

/-- A slot one update step away from settling: dead, safe-shaped, or
already a fixed point. -/
def Synced (c : PaintCore) (a : SculptAttribute) : Prop :=
  a.used = false ∨ SafeData c a ∨ Canonical c a

theorem SafeData_mono {c c' : PaintCore} (h : CoreExtends c c') {a : SculptAttribute}
    (hs : SafeData c a) : SafeData c' a := by
  intro hd
  rcases hs hd with h1 | h1 | h1 | h1
  · exact Or.inl h1
  · exact Or.inr (Or.inl h1)
  · exact Or.inr (Or.inr (Or.inl (by rw [sculpt_get_cdata_ext h]; exact h1)))
  · exact Or.inr (Or.inr (Or.inr (by rw [sculpt_attr_elem_count_ext h]; exact h1)))

theorem Canonical_mono {c c' : PaintCore} (h : CoreExtends c c') {a : SculptAttribute}
    (hc : Canonical c a) : Canonical c' a :=
  fun c'' h'' => hc c'' (CoreExtends_trans h h'')

theorem Settled_mono {c c' : PaintCore} (h : CoreExtends c c') {a : SculptAttribute}
    (hc : Settled c a) : Settled c' a :=
  hc.imp id (Canonical_mono h)

theorem Synced_mono {c c' : PaintCore} (h : CoreExtends c c') {a : SculptAttribute}
    (hc : Synced c a) : Synced c' a :=
  hc.imp id (fun h2 => h2.imp (SafeData_mono h) (Canonical_mono h))

/-- Sufficient field-level conditions for an attribute to be a fixed
point: layer-backed, layer present, session kind matching, element
count current whenever the buffer is non-null, and the refresh targets
already holding the located layer's storage or offset. -/
theorem canonical_of_facts (c : PaintCore) (a : SculptAttribute) {k : CDataKey} {i : Nat}
    (hcd : sculpt_get_cdata c a.domain = some k) (hsa : a.simple_array = false)
    (hi : layerIndexOf (getCData c k) a.proptype a.aname = some i)
    (hbm : c.bm = a.data_for_bmesh)
    (helem : ∀ d, a.data = some d → a.elem_num = sculpt_attr_elem_count_get c a.domain)
    (hoff : a.data_for_bmesh = true → a.bmesh_cd_offset = (layerAt (getCData c k) i).offset)
    (hdat : a.data_for_bmesh = false → a.data = some (layerAt (getCData c k) i).data) :
    Canonical c a := by
  intro c' h'
  have hcd' : sculpt_get_cdata c' a.domain = some k := by rw [sculpt_get_cdata_ext h', hcd]
  obtain ⟨hi', hL'⟩ := layer_ext h' k hi
  constructor
  · rw [computeBad_false_iff]
    refine ⟨?_, ?_, ?_⟩
    · intro d hd
      rw [sculpt_attr_elem_count_ext h']
      exact helem d hd
    · intro hs2 _
      simp [hsa] at hs2
    · intro k2 hk2 _
      rw [hcd'] at hk2
      injection hk2 with hk2
      subst hk2
      exact ⟨⟨i, hi'⟩, by rw [h'.1, hbm]⟩
  · rw [refresh_found c' a hcd' hsa hi', hL']
    by_cases hdfb : a.data_for_bmesh = true
    · rw [if_pos hdfb]
      exact attr_eta_offset a _ (hoff hdfb)
    · have hdfb' : a.data_for_bmesh = false := by simpa using hdfb
      rw [if_neg hdfb]
      exact attr_eta_data a _ (hdat hdfb')

/-- Refreshing a healthy, safe-shaped attribute yields a fixed point of
the update step. -/
theorem refresh_canonical (c : PaintCore) (a : SculptAttribute)
    (hb : computeBad c a = false) (hs : SafeData c a) :
    Canonical c (refreshAttr c a) := by
  by_cases hsa : a.simple_array = true
  · rw [refresh_simple c a hsa]
    exact fun c' h' => ⟨computeBad_ext h' a hb, refresh_simple c' a hsa⟩
  · have hsa' : a.simple_array = false := by simpa using hsa
    cases hcd : sculpt_get_cdata c a.domain with
    | none =>
      rw [refresh_nocdata c a hcd]
      exact fun c' h' => ⟨computeBad_ext h' a hb,
        refresh_nocdata c' a (by rw [sculpt_get_cdata_ext h', hcd])⟩
    | some k =>
      obtain ⟨h1, _, h3⟩ := (computeBad_false_iff c a).1 hb
      obtain ⟨⟨i, hi⟩, hbm⟩ := h3 k hcd hsa'
      rw [refresh_found c a hcd hsa' hi]
      by_cases hdfb : a.data_for_bmesh = true
      · rw [if_pos hdfb]
        refine canonical_of_facts c _ hcd hsa' hi hbm ?_ ?_ ?_
        · intro d hd
          exact h1 d hd
        · intro _
          rfl
        · intro h5
          have h6 : a.data_for_bmesh = false := h5
          simp [hdfb] at h6
      · have hdfb' : a.data_for_bmesh = false := by simpa using hdfb
        rw [if_neg hdfb]
        refine canonical_of_facts c _ hcd hsa' hi hbm ?_ ?_ ?_
        · intro d _
          cases hda : a.data with
          | some d0 => exact h1 d0 hda
          | none =>
            rcases hs hda with h4 | h4 | h4 | h4
            · simp [hsa'] at h4
            · simp [hdfb'] at h4
            · simp [hcd] at h4
            · exact h4
        · intro h5
          have h6 : a.data_for_bmesh = true := h5
          simp [hdfb'] at h6
        · intro _
          rfl

/-- Refreshing a healthy attribute always yields a safe-shaped one. -/
theorem refresh_safe (c : PaintCore) (a : SculptAttribute)
    (hb : computeBad c a = false) : SafeData c (refreshAttr c a) := by
  by_cases hsa : a.simple_array = true
  · rw [refresh_simple c a hsa]
    intro _
    exact Or.inl hsa
  · have hsa' : a.simple_array = false := by simpa using hsa
    cases hcd : sculpt_get_cdata c a.domain with
    | none =>
      rw [refresh_nocdata c a hcd]
      intro _
      exact Or.inr (Or.inr (Or.inl hcd))
    | some k =>
      obtain ⟨_, _, h3⟩ := (computeBad_false_iff c a).1 hb
      obtain ⟨⟨i, hi⟩, hbm⟩ := h3 k hcd hsa'
      rw [refresh_found c a hcd hsa' hi]
      by_cases hdfb : a.data_for_bmesh = true
      · rw [if_pos hdfb]
        intro _
        exact Or.inr (Or.inl hdfb)
      · rw [if_neg hdfb]
        intro hd
        simp at hd

theorem getCData_addLayer (c : PaintCore) (k : CDataKey) (pt n : Nat) :
    ∃ x : CDLayer, x.proptype = pt ∧ x.lname = n ∧
      getCData (addLayer c k pt n) k = getCData c k ++ [x] := by
  cases k <;> exact ⟨_, rfl, rfl, rfl⟩

theorem addLayer_bm (c : PaintCore) (k : CDataKey) (pt n : Nat) :
    (addLayer c k pt n).bm = c.bm := by
  cases k <;> rfl

/-- An attribute of a domain with no live CustomData is a fixed point as
soon as its element count is current whenever its buffer is non-null. -/
theorem canonical_nocdata (c : PaintCore) (a : SculptAttribute)
    (hcd : sculpt_get_cdata c a.domain = none) (hsa : a.simple_array = false)
    (helem : ∀ d, a.data = some d → a.elem_num = sculpt_attr_elem_count_get c a.domain) :
    Canonical c a := by
  intro c' h'
  have hcd' : sculpt_get_cdata c' a.domain = none := by
    rw [sculpt_get_cdata_ext h']
    exact hcd
  constructor
  · rw [computeBad_false_iff]
    refine ⟨?_, ?_, ?_⟩
    · intro d hd
      rw [sculpt_attr_elem_count_ext h']
      exact helem d hd
    · intro hs2 _
      simp [hsa] at hs2
    · intro k2 hk2 _
      rw [hcd'] at hk2
      simp at hk2
  · exact refresh_nocdata c' a hcd'

/-- A freshly created simple-array attribute is a fixed point, provided
the coercion check cannot fire (forced session kinds, or an honest
simple-array request). -/
theorem createSimple_canonical (c : PaintCore) (out : SculptAttribute) (pt : Nat)
    (hsp : c.pbvh_type = PbvhType.Grids ∨ c.pbvh_type = PbvhType.BMesh ∨
      out.params.simple_array = true) :
    Canonical (createSimple c out pt (sculpt_attr_elem_count_get c out.domain)).1
      (createSimple c out pt (sculpt_attr_elem_count_get c out.domain)).2.1 := by
  dsimp only [createSimple]
  intro c' h'
  constructor
  · rw [computeBad_false_iff]
    refine ⟨?_, ?_, ?_⟩
    · intro d _
      rw [sculpt_attr_elem_count_ext h',
        sculpt_attr_elem_count_ext (ctr_extends c (c.alloc_ctr + 1))]
    · intro _ hp2
      rw [h'.2.2.1]
      rcases hsp with h3 | h3 | h3
      · exact Or.inl h3
      · exact Or.inr h3
      · have hp2' : out.params.simple_array = false := hp2
        simp [h3] at hp2'
    · intro k2 _ hsa2
      simp at hsa2
  · exact refresh_simple c' _ rfl

/-- A freshly created layer-backed attribute is a fixed point: the
appended layer guarantees the lookup succeeds and the recorded storage
or offset is exactly what a refresh would reassign. -/
theorem createNamedLayer_canonical (c : PaintCore) (k : CDataKey) (pt n : Nat)
    (out : SculptAttribute) (forBm : Bool)
    (hp : out.proptype = pt) (hn : out.aname = n) (hsa : out.simple_array = false)
    (hkd : sculpt_get_cdata (addLayer c k pt n) out.domain = some k ∨
      sculpt_get_cdata (addLayer c k pt n) out.domain = none)
    (hbm : (addLayer c k pt n).bm = forBm) :
    Canonical (createNamedLayer c k pt n out forBm (sculpt_attr_elem_count_get c out.domain)).1
      (createNamedLayer c k pt n out forBm (sculpt_attr_elem_count_get c out.domain)).2.1 := by
  subst hp
  subst hn
  dsimp only [createNamedLayer]
  rcases hkd with hkd | hkd
  · obtain ⟨x, hxp, hxn, hgc⟩ := getCData_addLayer c k out.proptype out.aname
    obtain ⟨i, hi0⟩ := layerIndexOf_append_one (getCData c k) out.proptype out.aname x ⟨hxp, hxn⟩
    have hi : layerIndexOf (getCData (addLayer c k out.proptype out.aname) k)
        out.proptype out.aname = some i := by
      rw [hgc]
      exact hi0
    refine canonical_of_facts _ _ hkd hsa hi hbm ?_ ?_ ?_
    · intro d _
      rw [sculpt_attr_elem_count_ext (addLayer_extends c k out.proptype out.aname)]
    · intro h5
      have h5' : forBm = true := h5
      simp [h5', hi]
    · intro h5
      have h5' : forBm = false := h5
      simp [h5', hi]
  · refine canonical_nocdata _ _ hkd hsa ?_
    intro d _
    rw [sculpt_attr_elem_count_ext (addLayer_extends c k out.proptype out.aname)]

/-- Every path of `sculpt_attribute_create` only extends the backend
and leaves the attribute either dead (the unreachable-domain failure)
or a fixed point of the update step. -/
theorem create_settled (c : PaintCore) (domain : AttrDomain) (pt n : Nat)
    (out : SculptAttribute) (params : SculptAttributeParams) (flat : Bool) :
    CoreExtends c (sculpt_attribute_create c domain pt n out params flat).1 ∧
    ((sculpt_attribute_create c domain pt n out params flat).2.1.used = false ∨
     Canonical (sculpt_attribute_create c domain pt n out params flat).1
       (sculpt_attribute_create c domain pt n out params flat).2.1) := by
  unfold sculpt_attribute_create
  simp only []
  by_cases hf : c.pbvh_type = PbvhType.Grids ∨ (c.pbvh_type = PbvhType.BMesh ∧ flat = true)
  · rw [if_pos hf, if_pos rfl]
    refine ⟨ctr_extends c _, Or.inr ?_⟩
    exact createSimple_canonical c _ pt
      (hf.elim Or.inl (fun h => Or.inr (Or.inl h.1)))
  · rw [if_neg hf]
    by_cases hps : (if (c.pbvh_type = PbvhType.Grids ∨
        (c.pbvh_type = PbvhType.BMesh ∧ flat = true)) ∧ params.permanent = true then
        { params with permanent := false } else params).simple_array = true
    · rw [if_pos hps]
      refine ⟨ctr_extends c _, Or.inr ?_⟩
      exact createSimple_canonical c _ pt (Or.inr (Or.inr hps))
    · rw [if_neg hps]
      by_cases hbm2 : c.bm = true
      · rw [if_pos hbm2]
        cases domain with
        | Other => exact ⟨CoreExtends_refl c, Or.inl rfl⟩
        | Point =>
          dsimp only
          rw [if_pos rfl]
          refine ⟨addLayer_extends c _ pt n, Or.inr ?_⟩
          refine createNamedLayer_canonical c _ pt n _ true rfl rfl rfl ?_ ?_
          · left
            show sculpt_get_cdata _ AttrDomain.Point = _
            unfold sculpt_get_cdata
            rw [addLayer_bm, hbm2]
            rfl
          · rw [addLayer_bm]
            exact hbm2
        | Face =>
          dsimp only
          rw [if_neg (by simp)]
          refine ⟨addLayer_extends c _ pt n, Or.inr ?_⟩
          refine createNamedLayer_canonical c _ pt n _ true rfl rfl rfl ?_ ?_
          · left
            show sculpt_get_cdata _ AttrDomain.Face = _
            unfold sculpt_get_cdata
            rw [addLayer_bm, hbm2]
            rfl
          · rw [addLayer_bm]
            exact hbm2
      · have hbm3 : c.bm = false := by simpa using hbm2
        rw [if_neg hbm2]
        cases domain with
        | Other => exact ⟨CoreExtends_refl c, Or.inl rfl⟩
        | Point =>
          dsimp only
          rw [if_pos rfl]
          refine ⟨addLayer_extends c _ pt n, Or.inr ?_⟩
          refine createNamedLayer_canonical c _ pt n _ false rfl rfl rfl ?_ ?_
          · show sculpt_get_cdata _ AttrDomain.Point = _ ∨ sculpt_get_cdata _ AttrDomain.Point = _
            unfold sculpt_get_cdata
            rw [addLayer_bm, hbm3]
            by_cases hg : (addLayer c CDataKey.MeshV pt n).has_pbvh = true ∧
              (addLayer c CDataKey.MeshV pt n).pbvh_type = PbvhType.Grids
            · rw [if_neg (by simp), if_pos hg]
              exact Or.inr rfl
            · rw [if_neg (by simp), if_neg hg]
              exact Or.inl rfl
          · rw [addLayer_bm]
            exact hbm3
        | Face =>
          dsimp only
          rw [if_neg (by simp)]
          refine ⟨addLayer_extends c _ pt n, Or.inr ?_⟩
          refine createNamedLayer_canonical c _ pt n _ false rfl rfl rfl ?_ ?_
          · left
            show sculpt_get_cdata _ AttrDomain.Face = _
            unfold sculpt_get_cdata
            rw [addLayer_bm, hbm3]
            rfl
          · rw [addLayer_bm]
            exact hbm3

/-- One update step only extends the backend state. -/
theorem update_extends (c : PaintCore) (a : SculptAttribute) :
    CoreExtends c (sculpt_attr_update c a).1 := by
  unfold sculpt_attr_update
  split_ifs with hb hs
  · exact (create_settled c a.domain a.proptype a.aname
      { a with data := none } a.params a.data_for_bmesh).1
  · exact (create_settled c a.domain a.proptype a.aname a a.params a.data_for_bmesh).1
  · exact CoreExtends_refl c

/-- Whatever the input, one update step outputs a synced attribute
(dead, safe-shaped, or already a fixed point). -/
theorem update_synced (c : PaintCore) (a : SculptAttribute) :
    Synced (sculpt_attr_update c a).1 (sculpt_attr_update c a).2 := by
  unfold sculpt_attr_update
  split_ifs with hb hs
  · exact (create_settled c a.domain a.proptype a.aname
      { a with data := none } a.params a.data_for_bmesh).2.imp
      id (fun hc => Or.inr hc)
  · exact (create_settled c a.domain a.proptype a.aname
      a a.params a.data_for_bmesh).2.imp id (fun hc => Or.inr hc)
  · have hb' : computeBad c a = false := by simpa using hb
    exact Or.inr (Or.inl (refresh_safe c a hb'))

/-- One update step on a safe-shaped attribute settles it. -/
theorem update_settled_of_safe (c : PaintCore) (a : SculptAttribute)
    (hsd : SafeData c a) :
    Settled (sculpt_attr_update c a).1 (sculpt_attr_update c a).2 := by
  unfold sculpt_attr_update
  split_ifs with hb hs
  · exact (create_settled c a.domain a.proptype a.aname
      { a with data := none } a.params a.data_for_bmesh).2
  · exact (create_settled c a.domain a.proptype a.aname a a.params a.data_for_bmesh).2
  · have hb' : computeBad c a = false := by simpa using hb
    exact Or.inr (refresh_canonical c a hb' hsd)

/-- The update step fixes a canonical attribute. -/
theorem update_of_canonical (c : PaintCore) (a : SculptAttribute)
    (hc : Canonical c a) : sculpt_attr_update c a = (c, a) := by
  obtain ⟨h1, h2⟩ := hc c (CoreExtends_refl c)
  unfold sculpt_attr_update
  rw [if_neg (by simp [h1]), h2]

theorem updateAttrs_cons (c : PaintCore) (a : SculptAttribute) (rest : List SculptAttribute) :
    updateAttrs c (a :: rest) =
      ((updateAttrs (if a.used then sculpt_attr_update c a else (c, a)).1 rest).1,
       (if a.used then sculpt_attr_update c a else (c, a)).2 ::
         (updateAttrs (if a.used then sculpt_attr_update c a else (c, a)).1 rest).2) := rfl

/-- A whole update pass only extends the backend state. -/
theorem updateAttrs_extends (l : List SculptAttribute) (c : PaintCore) :
    CoreExtends c (updateAttrs c l).1 := by
  induction l generalizing c with
  | nil => exact CoreExtends_refl c
  | cons a rest ih =>
    rw [updateAttrs_cons]
    dsimp only
    by_cases hu : a.used = true
    · rw [if_pos hu]
      exact CoreExtends_trans (update_extends c a) (ih _)
    · rw [if_neg hu]
      exact ih c

/-- After one pass, every slot is synced with respect to the pass's
final backend state. -/
theorem updateAttrs_synced (l : List SculptAttribute) (c : PaintCore) :
    ∀ b ∈ (updateAttrs c l).2, Synced (updateAttrs c l).1 b := by
  induction l generalizing c with
  | nil =>
    intro b hb
    simp [updateAttrs] at hb
  | cons a rest ih =>
    intro b hb
    rw [updateAttrs_cons] at hb ⊢
    dsimp only at hb ⊢
    by_cases hu : a.used = true
    · rw [if_pos hu] at hb ⊢
      rcases List.mem_cons.1 hb with rfl | hb2
      · exact Synced_mono (updateAttrs_extends rest _) (update_synced c a)
      · exact ih _ b hb2
    · rw [if_neg hu] at hb ⊢
      rcases List.mem_cons.1 hb with rfl | hb2
      · exact Or.inl (by simpa using hu)
      · exact ih _ b hb2

/-- A pass over synced slots settles every slot. -/
theorem updateAttrs_settled (l : List SculptAttribute) (c : PaintCore)
    (hl : ∀ b ∈ l, Synced c b) :
    ∀ b ∈ (updateAttrs c l).2, Settled (updateAttrs c l).1 b := by
  induction l generalizing c with
  | nil =>
    intro b hb
    simp [updateAttrs] at hb
  | cons a rest ih =>
    intro b hb
    rw [updateAttrs_cons] at hb ⊢
    dsimp only at hb ⊢
    by_cases hu : a.used = true
    · rw [if_pos hu] at hb ⊢
      rcases List.mem_cons.1 hb with rfl | hb2
      · rcases hl a (List.mem_cons_self a rest) with hu0 | hsd | hc
        · simp [hu0] at hu
        · exact Settled_mono (updateAttrs_extends rest _) (update_settled_of_safe c a hsd)
        · rw [update_of_canonical c a hc]
          dsimp only
          exact Settled_mono (updateAttrs_extends rest c) (Or.inr hc)
      · refine ih _ ?_ b hb2
        intro b2 hb2m
        exact Synced_mono (update_extends c a) (hl b2 (List.mem_cons_of_mem a hb2m))
    · rw [if_neg hu] at hb ⊢
      rcases List.mem_cons.1 hb with rfl | hb2
      · exact Or.inl (by simpa using hu)
      · refine ih _ ?_ b hb2
        intro b2 hb2m
        exact hl b2 (List.mem_cons_of_mem a hb2m)

/-- A pass over settled slots is the identity. -/
theorem updateAttrs_id_of_settled (l : List SculptAttribute) (c : PaintCore)
    (hl : ∀ b ∈ l, Settled c b) :
    updateAttrs c l = (c, l) := by
  induction l generalizing c with
  | nil => rfl
  | cons a rest ih =>
    rw [updateAttrs_cons]
    have hr : (if a.used then sculpt_attr_update c a else (c, a)) = (c, a) := by
      rcases hl a (List.mem_cons_self a rest) with hu | hc
      · rw [if_neg (by simp [hu])]
      · split_ifs with hu2
        · exact update_of_canonical c a hc
        · rfl
    rw [hr]
    dsimp only
    rw [ih c (fun b hb => hl b (List.mem_cons_of_mem a hb))]

/-- C7: calling the attribute store's reference-update entry point
(`sculpt_attribute_update_refs`, which runs the per-slot update loop
twice) twice in succession on an unchanged mesh is idempotent: the
second call is a no-op, leaving the backend state and every attribute
slot - buffer identities and contents - unchanged. -/
theorem sculpt_attribute_update_refs_idempotent (s : PaintSession) :
    sculpt_attribute_update_refs (sculpt_attribute_update_refs s) =
      sculpt_attribute_update_refs s := by
  have hsync := updateAttrs_synced s.temp_attributes s.core
  have hset := updateAttrs_settled (updateAttrs s.core s.temp_attributes).2
    (updateAttrs s.core s.temp_attributes).1 hsync
  have hid := updateAttrs_id_of_settled
    (updateAttrs (updateAttrs s.core s.temp_attributes).1
      (updateAttrs s.core s.temp_attributes).2).2
    (updateAttrs (updateAttrs s.core s.temp_attributes).1
      (updateAttrs s.core s.temp_attributes).2).1
    hset
  unfold sculpt_attribute_update_refs
  simp only []
  rw [hid]
  dsimp only
  rw [hid]

/-- The convenience-pointer sweep of `BKE_sculpt_attribute_destroy`
(paint.cc:2935-2943): null every table entry aimed at the handle. -/
def clearPtrs (l : List (Option Nat)) (ai : Nat) : List (Option Nat) :=
  l.map (fun p => if p = some ai then none else p)

/-- The registry sweep of `BKE_sculpt_attribute_destroy`
(paint.cc:2945-2954): clear `used` on every slot with the handle's
name, domain and type. -/
def clearMatching (l : List SculptAttribute) (nm : Nat) (dom : AttrDomain) (pt : Nat) :
    List SculptAttribute :=
  l.map (fun a2 =>
    if a2.aname = nm ∧ a2.domain = dom ∧ a2.proptype = pt
    then { a2 with used := false } else a2)

/-- The closing assignments of `BKE_sculpt_attribute_destroy`
(paint.cc:2999-3000): null the handle's buffer and clear its flag. -/
def finalClear (s : PaintSession) (ai : Nat) : PaintSession :=
  let old := s.temp_attributes.getD ai default
  { s with temp_attributes :=
      s.temp_attributes.set ai { old with data := none, used := false } }

/-- Modelled from the spec: `CustomData_free_layer` (outside the
excerpt) removes the indexed layer and frees its storage; the model
flags a negative index instead of reading out of range. -/
def meshFreeLayer (s : PaintSession) (k : CDataKey) (layer_i : Int) : PaintSession :=
  if 0 ≤ layer_i then
    { s with
        core := setCData s.core k ((getCData s.core k).eraseIdx layer_i.toNat)
        freed := s.freed ++
          (((getCData s.core k)[layer_i.toNat]?).map (fun l => l.data)).toList }
  else { s with invalid_layer_free := true }

/-- Modelled from the spec: `BM_data_layer_free_named` (outside the
excerpt) removes the first matching named layer, doing nothing when it
is absent. -/
def bmFreeNamed (s : PaintSession) (k : CDataKey) (pt nm : Nat) : PaintSession :=
  match layerIndexOf (getCData s.core k) pt nm with
  | some i =>
    { s with
        core := setCData s.core k ((getCData s.core k).eraseIdx i)
        freed := s.freed ++
          (((getCData s.core k)[i]?).map (fun l => l.data)).toList }
  | none => s

/-- `BKE_sculpt_attribute_destroy` (paint.cc:2927), on the handle in
slot `ai`: assert the handle is live (debug assert only - execution
continues regardless), sweep the convenience pointers and the
registry, free the backing storage (simple arrays directly; bmesh via
the named layer; regular meshes via the looked-up layer index, but
only when that index is nonzero, a negative missing-layer index being
passed to the layer free), refresh references when a pbvh exists, and
finally null the handle's buffer and flag.  The unreachable-domain
default returns false before the final assignments. -/
def BKE_sculpt_attribute_destroy (s : PaintSession) (ai : Nat) : PaintSession × Bool :=
  let attr := s.temp_attributes.getD ai default
  let s1 := { s with bli_assert_failed := s.bli_assert_failed || !attr.used }
  let s2 := { s1 with attrs_ptrs := clearPtrs s1.attrs_ptrs ai }
  let s3 := { s2 with
    temp_attributes := clearMatching s2.temp_attributes attr.aname attr.domain attr.proptype }
  if attr.simple_array then
    let s4 := { s3 with freed := s3.freed ++ attr.data.toList }
    (finalClear s4 ai, true)
  else if s3.core.bm then
    let k := if attr.domain = AttrDomain.Point then CDataKey.BmV else CDataKey.BmP
    (finalClear (bmFreeNamed s3 k attr.proptype attr.aname) ai, true)
  else
    if attr.domain = AttrDomain.Other then
      ({ s3 with bli_assert_failed := true }, false)
    else
      let k := if attr.domain = AttrDomain.Point then CDataKey.MeshV else CDataKey.MeshF
      let layer_i := CustomData_get_named_layer_index (getCData s3.core k)
        attr.proptype attr.aname
      let s4 := if layer_i ≠ 0 then meshFreeLayer s3 k layer_i else s3
      let s5 := if s4.core.has_pbvh then sculpt_attribute_update_refs s4 else s4
      (finalClear s5 ai, true)

theorem getD_set_self {α : Type} (l : List α) (i : Nat) (x d : α) (h : i < l.length) :
    (l.set i x).getD i d = x := by
  induction l generalizing i with
  | nil => simp at h
  | cons a rest ih =>
    cases i with
    | zero => rfl
    | succ j =>
      simp only [List.set_cons_succ, List.getD_cons_succ]
      exact ih j (by simpa using h)

theorem clearPtrs_clears (l : List (Option Nat)) (ai : Nat) :
    ∀ p ∈ clearPtrs l ai, p ≠ some ai := by
  intro p hp
  obtain ⟨p0, _, rfl⟩ := List.mem_map.1 hp
  by_cases h0 : p0 = some ai
  · simp [h0]
  · simp [h0]

theorem clearMatching_length (l : List SculptAttribute) (nm : Nat) (dom : AttrDomain)
    (pt : Nat) : (clearMatching l nm dom pt).length = l.length :=
  List.length_map l _

theorem updateAttrs_sameLength (l : List SculptAttribute) (c : PaintCore) :
    (updateAttrs c l).2.length = l.length := by
  induction l generalizing c with
  | nil => rfl
  | cons a rest ih =>
    rw [updateAttrs_cons]
    dsimp only
    rw [List.length_cons, List.length_cons, ih]

theorem update_refs_temp_length (s : PaintSession) :
    (sculpt_attribute_update_refs s).temp_attributes.length =
      s.temp_attributes.length := by
  unfold sculpt_attribute_update_refs
  simp only []
  rw [updateAttrs_sameLength, updateAttrs_sameLength]

theorem update_refs_fields (s : PaintSession) :
    (sculpt_attribute_update_refs s).attrs_ptrs = s.attrs_ptrs ∧
    (sculpt_attribute_update_refs s).bli_assert_failed = s.bli_assert_failed ∧
    (sculpt_attribute_update_refs s).freed = s.freed :=
  ⟨rfl, rfl, rfl⟩

theorem finalClear_fields (s : PaintSession) (ai : Nat) :
    (finalClear s ai).attrs_ptrs = s.attrs_ptrs ∧
    (finalClear s ai).bli_assert_failed = s.bli_assert_failed ∧
    (finalClear s ai).freed = s.freed :=
  ⟨rfl, rfl, rfl⟩

theorem bmFreeNamed_fields (s : PaintSession) (k : CDataKey) (pt nm : Nat) :
    (bmFreeNamed s k pt nm).temp_attributes = s.temp_attributes ∧
    (bmFreeNamed s k pt nm).attrs_ptrs = s.attrs_ptrs ∧
    (bmFreeNamed s k pt nm).bli_assert_failed = s.bli_assert_failed := by
  unfold bmFreeNamed
  cases layerIndexOf (getCData s.core k) pt nm <;> exact ⟨rfl, rfl, rfl⟩

theorem meshFreeLayer_fields (s : PaintSession) (k : CDataKey) (li : Int) :
    (meshFreeLayer s k li).temp_attributes = s.temp_attributes ∧
    (meshFreeLayer s k li).attrs_ptrs = s.attrs_ptrs ∧
    (meshFreeLayer s k li).bli_assert_failed = s.bli_assert_failed := by
  unfold meshFreeLayer
  split_ifs <;> exact ⟨rfl, rfl, rfl⟩

/-- The final assignments kill the handle's slot whatever came before. -/
theorem finalClear_slot (s : PaintSession) (ai : Nat)
    (h : ai < s.temp_attributes.length) :
    ((finalClear s ai).temp_attributes.getD ai default).used = false ∧
    ((finalClear s ai).temp_attributes.getD ai default).data = none := by
  unfold finalClear
  simp only []
  rw [getD_set_self _ _ _ _ h]
  exact ⟨rfl, rfl⟩

theorem getD_map_lt {α β : Type} (f : α → β) (l : List α) (j : Nat) (d : α) (d' : β)
    (h : j < l.length) : (l.map f).getD j d' = f (l.getD j d) := by
  induction l generalizing j with
  | nil => simp at h
  | cons a rest ih =>
    cases j with
    | zero => rfl
    | succ i =>
      simp only [List.map_cons, List.getD_cons_succ]
      exact ih i (by simpa using h)

theorem getD_set_ne {α : Type} (l : List α) (i j : Nat) (x d : α) (h : j ≠ i) :
    (l.set i x).getD j d = l.getD j d := by
  induction l generalizing i j with
  | nil => rfl
  | cons a rest ih =>
    cases i with
    | zero =>
      cases j with
      | zero => exact absurd rfl h
      | succ j2 => rfl
    | succ i2 =>
      cases j with
      | zero => rfl
      | succ j2 =>
        simp only [List.set_cons_succ, List.getD_cons_succ]
        exact ih i2 j2 (fun he => h (by rw [he]))

/-- The update pass never touches a dead slot. -/
theorem updateAttrs_unused (l : List SculptAttribute) (c : PaintCore) (i : Nat)
    (h : (l.getD i default).used = false) :
    (updateAttrs c l).2.getD i default = l.getD i default := by
  induction l generalizing c i with
  | nil => rfl
  | cons a rest ih =>
    rw [updateAttrs_cons]
    dsimp only
    cases i with
    | zero =>
      rw [List.getD_cons_zero] at h
      rw [List.getD_cons_zero, List.getD_cons_zero, if_neg (by simp [h])]
    | succ i2 =>
      rw [List.getD_cons_succ] at h
      rw [List.getD_cons_succ, List.getD_cons_succ]
      exact ih _ i2 h

/-- Reference updating never touches a dead slot. -/
theorem update_refs_getD_unused (s : PaintSession) (i : Nat)
    (h : (s.temp_attributes.getD i default).used = false) :
    (sculpt_attribute_update_refs s).temp_attributes.getD i default =
      s.temp_attributes.getD i default := by
  unfold sculpt_attribute_update_refs
  simp only []
  have h1 := updateAttrs_unused s.temp_attributes s.core i h
  have h2 := updateAttrs_unused (updateAttrs s.core s.temp_attributes).2
    (updateAttrs s.core s.temp_attributes).1 i (by rw [h1]; exact h)
  rw [h2, h1]

/-- The registry sweep kills the used flag of every matching slot. -/
theorem clearMatching_getD_matching (l : List SculptAttribute) (nm : Nat)
    (dom : AttrDomain) (pt : Nat) (j : Nat) (hj : j < l.length)
    (hm : (l.getD j default).aname = nm ∧ (l.getD j default).domain = dom ∧
      (l.getD j default).proptype = pt) :
    ((clearMatching l nm dom pt).getD j default).used = false := by
  unfold clearMatching
  rw [getD_map_lt _ l j default default hj, if_pos hm]

/-- The final assignments keep every other dead slot dead. -/
theorem finalClear_other_slot (s : PaintSession) (ai j : Nat)
    (hj : j < s.temp_attributes.length)
    (h : (s.temp_attributes.getD j default).used = false) :
    ((finalClear s ai).temp_attributes.getD j default).used = false := by
  unfold finalClear
  simp only []
  by_cases hja : j = ai
  · subst hja
    rw [getD_set_self _ _ _ _ hj]
  · rw [getD_set_ne _ _ _ _ _ hja]
    exact h

theorem destroy_layer_step_fields (s3 : PaintSession) (k : CDataKey) (li : Int) :
    ((if li ≠ 0 then meshFreeLayer s3 k li else s3).temp_attributes = s3.temp_attributes) ∧
    ((if li ≠ 0 then meshFreeLayer s3 k li else s3).attrs_ptrs = s3.attrs_ptrs) ∧
    ((if li ≠ 0 then meshFreeLayer s3 k li else s3).bli_assert_failed =
      s3.bli_assert_failed) := by
  split_ifs with h
  · exact meshFreeLayer_fields s3 k li
  · exact ⟨rfl, rfl, rfl⟩

theorem destroy_refs_step_fields (s4 : PaintSession) :
    ((if s4.core.has_pbvh = true then sculpt_attribute_update_refs s4
        else s4).temp_attributes.length = s4.temp_attributes.length) ∧
    ((if s4.core.has_pbvh = true then sculpt_attribute_update_refs s4
        else s4).attrs_ptrs = s4.attrs_ptrs) ∧
    ((if s4.core.has_pbvh = true then sculpt_attribute_update_refs s4
        else s4).bli_assert_failed = s4.bli_assert_failed) := by
  split_ifs with h
  · exact ⟨update_refs_temp_length s4, (update_refs_fields s4).1, (update_refs_fields s4).2.1⟩
  · exact ⟨rfl, rfl, rfl⟩

theorem destroy_refs_step_slot (s4 : PaintSession) (i : Nat)
    (h : (s4.temp_attributes.getD i default).used = false) :
    ((if s4.core.has_pbvh = true then sculpt_attribute_update_refs s4
        else s4).temp_attributes.getD i default) =
      s4.temp_attributes.getD i default := by
  split_ifs with hp
  · exact update_refs_getD_unused s4 i h
  · rfl

/-- C8 (amended): destroying a live handle of a reachable domain
returns true, does not trip the liveness assertion, clears every
convenience-table pointer to the handle, leaves the handle's slot dead
with a null buffer, for a simple-array attribute records its buffer's
storage as freed, and clears the used flag of every registry slot
sharing the handle's name, domain and type. -/
theorem BKE_sculpt_attribute_destroy_first_spec (s : PaintSession) (ai : Nat)
    (hai : ai < s.temp_attributes.length)
    (hused : (s.temp_attributes.getD ai default).used = true)
    (hdom : (s.temp_attributes.getD ai default).domain ≠ AttrDomain.Other) :
    (BKE_sculpt_attribute_destroy s ai).2 = true ∧
    (BKE_sculpt_attribute_destroy s ai).1.bli_assert_failed = s.bli_assert_failed ∧
    (∀ p ∈ (BKE_sculpt_attribute_destroy s ai).1.attrs_ptrs, p ≠ some ai) ∧
    ((BKE_sculpt_attribute_destroy s ai).1.temp_attributes.getD ai default).used = false ∧
    ((BKE_sculpt_attribute_destroy s ai).1.temp_attributes.getD ai default).data = none ∧
    ((s.temp_attributes.getD ai default).simple_array = true →
      ∀ d, (s.temp_attributes.getD ai default).data = some d →
        d ∈ (BKE_sculpt_attribute_destroy s ai).1.freed) ∧
    (∀ j, j < s.temp_attributes.length →
      (s.temp_attributes.getD j default).aname =
        (s.temp_attributes.getD ai default).aname →
      (s.temp_attributes.getD j default).domain =
        (s.temp_attributes.getD ai default).domain →
      (s.temp_attributes.getD j default).proptype =
        (s.temp_attributes.getD ai default).proptype →
      ((BKE_sculpt_attribute_destroy s ai).1.temp_attributes.getD j default).used =
        false) := by
  unfold BKE_sculpt_attribute_destroy
  simp only []
  have hlen3 : ai < (clearMatching s.temp_attributes
      (s.temp_attributes.getD ai default).aname
      (s.temp_attributes.getD ai default).domain
      (s.temp_attributes.getD ai default).proptype).length := by
    rw [clearMatching_length]
    exact hai
  have hjlen : ∀ j, j < s.temp_attributes.length →
      j < (clearMatching s.temp_attributes
        (s.temp_attributes.getD ai default).aname
        (s.temp_attributes.getD ai default).domain
        (s.temp_attributes.getD ai default).proptype).length := by
    intro j hj
    rw [clearMatching_length]
    exact hj
  by_cases hsa : (s.temp_attributes.getD ai default).simple_array = true
  · rw [if_pos hsa]
    refine ⟨rfl, ?_, ?_, ?_, ?_, ?_, ?_⟩
    · rw [(finalClear_fields _ _).2.1]
      dsimp only
      rw [hused]
      simp
    · rw [(finalClear_fields _ _).1]
      dsimp only
      exact clearPtrs_clears _ _
    · exact (finalClear_slot _ ai hlen3).1
    · exact (finalClear_slot _ ai hlen3).2
    · intro _ d hd
      rw [(finalClear_fields _ _).2.2]
      dsimp only
      rw [hd]
      simp
    · intro j hj h1 h2 h3
      exact finalClear_other_slot _ ai j (hjlen j hj)
        (clearMatching_getD_matching s.temp_attributes
          (s.temp_attributes.getD ai default).aname
          (s.temp_attributes.getD ai default).domain
          (s.temp_attributes.getD ai default).proptype j hj ⟨h1, h2, h3⟩)
  · rw [if_neg hsa]
    by_cases hbm : s.core.bm = true
    · rw [if_pos hbm]
      refine ⟨rfl, ?_, ?_, ?_, ?_, ?_, ?_⟩
      · rw [(finalClear_fields _ _).2.1, (bmFreeNamed_fields _ _ _ _).2.2]
        dsimp only
        rw [hused]
        simp
      · rw [(finalClear_fields _ _).1, (bmFreeNamed_fields _ _ _ _).2.1]
        dsimp only
        exact clearPtrs_clears _ _
      · exact (finalClear_slot _ ai (by
          rw [(bmFreeNamed_fields _ _ _ _).1]
          exact hlen3)).1
      · exact (finalClear_slot _ ai (by
          rw [(bmFreeNamed_fields _ _ _ _).1]
          exact hlen3)).2
      · intro hsimp
        exact absurd hsimp hsa
      · intro j hj h1 h2 h3
        refine finalClear_other_slot _ ai j ?_ ?_
        · rw [(bmFreeNamed_fields _ _ _ _).1]
          exact hjlen j hj
        · rw [(bmFreeNamed_fields _ _ _ _).1]
          exact clearMatching_getD_matching s.temp_attributes
            (s.temp_attributes.getD ai default).aname
            (s.temp_attributes.getD ai default).domain
            (s.temp_attributes.getD ai default).proptype j hj ⟨h1, h2, h3⟩
    · rw [if_neg hbm, if_neg hdom]
      refine ⟨rfl, ?_, ?_, ?_, ?_, ?_, ?_⟩
      · rw [(finalClear_fields _ _).2.1, (destroy_refs_step_fields _).2.2,
          (destroy_layer_step_fields _ _ _).2.2]
        dsimp only
        rw [hused]
        simp
      · rw [(finalClear_fields _ _).1, (destroy_refs_step_fields _).2.1,
          (destroy_layer_step_fields _ _ _).2.1]
        dsimp only
        exact clearPtrs_clears _ _
      · exact (finalClear_slot _ ai (by
          rw [(destroy_refs_step_fields _).1, (destroy_layer_step_fields _ _ _).1]
          exact hlen3)).1
      · exact (finalClear_slot _ ai (by
          rw [(destroy_refs_step_fields _).1, (destroy_layer_step_fields _ _ _).1]
          exact hlen3)).2
      · intro hsimp
        exact absurd hsimp hsa
      · intro j hj h1 h2 h3
        have hcm := clearMatching_getD_matching s.temp_attributes
          (s.temp_attributes.getD ai default).aname
          (s.temp_attributes.getD ai default).domain
          (s.temp_attributes.getD ai default).proptype j hj ⟨h1, h2, h3⟩
        refine finalClear_other_slot _ ai j ?_ ?_
        · rw [(destroy_refs_step_fields _).1, (destroy_layer_step_fields _ _ _).1]
          exact hjlen j hj
        · rw [destroy_refs_step_slot]
          · rw [(destroy_layer_step_fields _ _ _).1]
            exact hcm
          · rw [(destroy_layer_step_fields _ _ _).1]
            exact hcm

/-- A live mesh-layer-backed point attribute in slot 0. -/
def attrDestroy : SculptAttribute where
  used := true
  domain := AttrDomain.Point
  proptype := CD_PROP_FLOAT
  aname := 7
  simple_array := false
  params := { permanent := false, stroke_only := false, simple_array := false }
  data := some 5
  data_for_bmesh := false
  elem_num := 3
  bmesh_cd_offset := -1
  elem_size := 4

/-- A regular-mesh backend whose vertex CustomData holds the
attribute's layer at index 1, behind an unrelated layer. -/
def coreDestroy : PaintCore where
  alloc_ctr := 20
  bm := false
  has_pbvh := false
  pbvh_type := PbvhType.Mesh
  vertex_count := 3
  totfaces := 0
  mesh_vdata := [{ proptype := 99, lname := 99, data := 50, offset := 0 },
                 { proptype := CD_PROP_FLOAT, lname := 7, data := 5, offset := 4 }]
  mesh_fdata := []
  bm_vdata := []
  bm_pdata := []

def ssDestroy : PaintSession where
  core := coreDestroy
  temp_attributes := [attrDestroy]
  attrs_ptrs := [some 0]
  bli_assert_failed := false
  invalid_layer_free := false
  freed := []

/-- The same session, but with the attribute's layer sitting at
CustomData index 0. -/
def ssLeak : PaintSession :=
  { ssDestroy with core := { coreDestroy with
      mesh_vdata := [{ proptype := CD_PROP_FLOAT, lname := 7, data := 5, offset := 0 }] } }

/-- C8 counterexample: the liveness check is only a debug assertion, so
destroying an already-destroyed handle is not a no-op - on `ssDestroy`
the second destroy trips the assertion poison flag and, the layer being
gone, passes the missing-layer index -1 to the layer free (the first
destroy tripping neither); and the backing storage is not always freed:
on `ssLeak` the layer sits at CustomData index 0, the `layer_i != 0`
guard skips the free, and the layer and its storage survive the
destroy. -/
theorem destroy_not_guarded_and_can_leak :
    ((BKE_sculpt_attribute_destroy ssDestroy 0).1.bli_assert_failed = false ∧
     (BKE_sculpt_attribute_destroy ssDestroy 0).1.invalid_layer_free = false ∧
     (BKE_sculpt_attribute_destroy
        (BKE_sculpt_attribute_destroy ssDestroy 0).1 0).1.bli_assert_failed = true ∧
     (BKE_sculpt_attribute_destroy
        (BKE_sculpt_attribute_destroy ssDestroy 0).1 0).1.invalid_layer_free = true) ∧
    ((BKE_sculpt_attribute_destroy ssLeak 0).1.core.mesh_vdata =
       [{ proptype := CD_PROP_FLOAT, lname := 7, data := 5, offset := 0 }] ∧
     (BKE_sculpt_attribute_destroy ssLeak 0).1.freed = []) := by
  decide

/-- Witness for the amended C8 theorem: the hypotheses hold at
`ssDestroy`, slot 0, and the guarantees follow. -/
theorem BKE_sculpt_attribute_destroy_first_spec_witness :
    0 < ssDestroy.temp_attributes.length ∧
    (ssDestroy.temp_attributes.getD 0 default).used = true ∧
    (ssDestroy.temp_attributes.getD 0 default).domain ≠ AttrDomain.Other ∧
    ((BKE_sculpt_attribute_destroy ssDestroy 0).2 = true ∧
     (BKE_sculpt_attribute_destroy ssDestroy 0).1.bli_assert_failed =
       ssDestroy.bli_assert_failed ∧
     (∀ p ∈ (BKE_sculpt_attribute_destroy ssDestroy 0).1.attrs_ptrs, p ≠ some 0) ∧
     ((BKE_sculpt_attribute_destroy ssDestroy 0).1.temp_attributes.getD 0 default).used =
       false ∧
     ((BKE_sculpt_attribute_destroy ssDestroy 0).1.temp_attributes.getD 0 default).data =
       none ∧
     ((ssDestroy.temp_attributes.getD 0 default).simple_array = true →
       ∀ d, (ssDestroy.temp_attributes.getD 0 default).data = some d →
         d ∈ (BKE_sculpt_attribute_destroy ssDestroy 0).1.freed) ∧
     (∀ j, j < ssDestroy.temp_attributes.length →
       (ssDestroy.temp_attributes.getD j default).aname =
         (ssDestroy.temp_attributes.getD 0 default).aname →
       (ssDestroy.temp_attributes.getD j default).domain =
         (ssDestroy.temp_attributes.getD 0 default).domain →
       (ssDestroy.temp_attributes.getD j default).proptype =
         (ssDestroy.temp_attributes.getD 0 default).proptype →
       ((BKE_sculpt_attribute_destroy ssDestroy 0).1.temp_attributes.getD j
         default).used = false)) :=
  ⟨by decide, by decide, by decide,
   BKE_sculpt_attribute_destroy_first_spec ssDestroy 0 (by decide) (by decide) (by decide)⟩

end Blender
